import Mathlib

/-!
# Verification of the mission-action scoring and ranking engine

A shallow embedding of the scoring/ranking core of the repository:
`src/utils/normalization.py`, `src/data/processors.py`,
`src/scoring/action_sports.py`, `src/scoring/outreach.py`,
`src/scoring/combined.py` and the weighted-scoring layer of `app.py`.

Modelling conventions:
* pandas float values are modelled as `ℚ`; a nullable column entry is
  `Option ℚ` with `none` for NaN/null.  Arithmetic on nullable entries
  propagates `none` exactly as NaN propagates through pandas arithmetic.
* A float division whose denominator is zero produces a non-finite float
  (`inf`/NaN) in pandas; such a result is modelled as `none`
  ("no finite value"), see `odiv`.
* pandas `Series.min`/`Series.max`/`Series.median` skip null entries and
  return NaN (here: `none`) on an all-null column.
* `Series.round(1)` rounds half to even (numpy rounding); `round1` models
  this exactly on `ℚ`.
* pandas sorting and ranking are modelled with `List.insertionSort`, which
  produces the same sorted order (stable, total preorder) as the library
  sort.
* A pandas operation that raises (`ValueError`, `KeyError`,
  `astype(int)` on NaN) is modelled with `Except`/`Option` result types.
-/

/-!
## Definitions: the shallow embedding
-/

/-- `numpy`-style clip: `clip(x, lo, hi) = min(max(x, lo), hi)`. -/
def clipQ (lo hi x : ℚ) : ℚ := min (max x lo) hi

/-- Clip applied to a nullable entry (NaN stays NaN under pandas clip). -/
def oclip (lo hi : ℚ) (v : Option ℚ) : Option ℚ := v.map (clipQ lo hi)

/-- Pointwise binary arithmetic on nullable entries: NaN propagates. -/
def ozipWith (f : ℚ → ℚ → ℚ) : Option ℚ → Option ℚ → Option ℚ
  | some x, some y => some (f x y)
  | _, _ => none

/-- Scalar multiple of a nullable entry. -/
def oscale (w : ℚ) (v : Option ℚ) : Option ℚ := v.map (w * ·)

/-- Float division; a zero denominator yields a non-finite float in the
source, modelled as `none`. -/
def odiv (a b : ℚ) : Option ℚ := if b = 0 then none else some (a / b)

/-- The non-null entries of a column, in order (pandas `dropna`). -/
def somesQ (l : List (Option ℚ)) : List ℚ := l.filterMap id

/-- pandas `Series.min`: minimum of the non-null entries, NaN if none. -/
def seriesMin (l : List (Option ℚ)) : Option ℚ :=
  match somesQ l with
  | [] => none
  | x :: xs => some (xs.foldl min x)

/-- pandas `Series.max`: maximum of the non-null entries, NaN if none. -/
def seriesMax (l : List (Option ℚ)) : Option ℚ :=
  match somesQ l with
  | [] => none
  | x :: xs => some (xs.foldl max x)

/-- Ascending sort of a rational list (pandas sort order). -/
def sortAscQ (l : List ℚ) : List ℚ := List.insertionSort (· ≤ ·) l

/-- Descending sort of a rational list. -/
def sortDescQ (l : List ℚ) : List ℚ := List.insertionSort (fun a b => b ≤ a) l

/-- pandas `Series.median` over the non-null entries: middle element of the
sorted values, or the mean of the two middle elements; NaN (`none`) when
every entry is null. -/
def medianQ (l : List (Option ℚ)) : Option ℚ :=
  let s := sortAscQ (somesQ l)
  let n := s.length
  if n = 0 then none
  else if n % 2 = 1 then some (s.getD (n / 2) 0)
  else some ((s.getD (n / 2 - 1) 0 + s.getD (n / 2) 0) / 2)

/-- Round half to even on integers-scaled-by-ten: numpy/pandas `round(1)`.
`rhe x` is the integer nearest to `x`, ties going to the even integer. -/
def rhe (x : ℚ) : ℤ :=
  if x - ⌊x⌋ = 1 / 2 then (if Even ⌊x⌋ then ⌊x⌋ else ⌊x⌋ + 1) else round x

/-- pandas `Series.round(1)` on a single value. -/
def round1 (x : ℚ) : ℚ := (rhe (x * 10) : ℚ) / 10

/-- pandas `Series.rank(ascending=False, method='min')` of the value `x`
within the column `l`: one plus the position of the first occurrence of the
tie-class of `x` in the descending sort of `l`. -/
def rankMin (l : List ℚ) (x : ℚ) : ℕ :=
  1 + ((sortDescQ l).takeWhile (fun y => decide (x < y))).length

/-- The scaling minimum actually used by `min_max_normalize`: the explicit
`min_val` argument if given, otherwise the observed column minimum. -/
def effective_min (values : List (Option ℚ)) (minVal : Option ℚ) : Option ℚ :=
  match minVal with | some a => some a | none => seriesMin values

/-- The scaling maximum actually used by `min_max_normalize`: the explicit
`max_val` argument if given, otherwise the observed column maximum. -/
def effective_max (values : List (Option ℚ)) (maxVal : Option ℚ) : Option ℚ :=
  match maxVal with | some b => some b | none => seriesMax values

/-- `min_max_normalize` from `src/utils/normalization.py`.  `values` is the
input column (nullable entries allowed), `minVal`/`maxVal` are the optional
explicit bounds (`None` means: use the observed min/max, which is NaN on an
all-null column, in which case the arithmetic path yields an all-NaN
column). -/
def min_max_normalize (values : List (Option ℚ)) (minVal maxVal : Option ℚ)
    (targetMin targetMax : ℚ) (invert : Bool) : List (Option ℚ) :=
  match effective_min values minVal, effective_max values maxVal with
  | some a, some b =>
    if b = a then
      values.map (fun _ => some targetMax)
    else
      values.map (Option.map (fun x =>
        let normalized := (x - a) / (b - a)
        let normalized := if invert then 1 - normalized else normalized
        clipQ targetMin targetMax (normalized * (targetMax - targetMin) + targetMin)))
  | _, _ => values.map (fun _ => none)

/-- A processed row of the Joshua Project religious-demographics table. -/
structure JoshuaRow where
  country : String
  iso_alpha_3 : Option String
  population : Option ℚ
  pct_evangelical : Option ℚ
  pct_christian : Option ℚ
  pct_unreached : Option ℚ
  unreached_groups : Option ℚ
  continent : String
deriving DecidableEq, Repr

/-- A processed row of the Open Doors persecution table. -/
structure OpenDoorsRow where
  iso_alpha_3 : Option String
  persecution_score : Option ℚ
  persecution_rank : Option ℚ
deriving DecidableEq, Repr

/-- A processed row of the WEF TTDI tourism table. -/
structure WefRow where
  iso_alpha_3 : Option String
  ttdi_score : Option ℚ
  ttdi_rank : Option ℚ
deriving DecidableEq, Repr

/-- A row of the activity-availability table: one boolean per sport column. -/
structure SportsRow where
  iso_alpha_3 : Option String
  sport_values : List Bool
deriving DecidableEq, Repr

/-- The activity-availability table (`load_action_sports_data`): the sport
column names plus one row per country. -/
structure SportsTable where
  sport_columns : List String
  rows : List SportsRow
deriving DecidableEq, Repr

/-- A row of the merged table produced by `merge_all_data`.
`persecution_score` and `legal_openness` are non-null (the merge fills
them), `ttdi_score` may remain null when every joined value was null. -/
structure MergedRow where
  country : String
  iso_alpha_3 : Option String
  population : Option ℚ
  pct_evangelical : Option ℚ
  pct_christian : Option ℚ
  pct_unreached : Option ℚ
  unreached_groups : Option ℚ
  continent : String
  persecution_score : ℚ
  persecution_rank : Option ℚ
  legal_openness : ℚ
  ttdi_score : Option ℚ
  ttdi_rank : Option ℚ
  sport_flags : List Bool
deriving DecidableEq, Repr

/-- The merged table.  `has_ttdi`/`has_sports` record whether the
`ttdi_score` column and the sport columns exist at all (pandas column
presence): `merge_all_data` skips a join when the source table is empty,
and downstream scorers branch on column presence. -/
structure MergedTable where
  rows : List MergedRow
  has_ttdi : Bool
  has_sports : Bool
deriving DecidableEq, Repr

/-- First matching right-hand row of a left join on `iso_alpha_3`: a null
key matches nothing (pandas merge semantics on NaN keys). -/
def find_join {ρ : Type} (iso : Option String) (key : ρ → Option String)
    (l : List ρ) : Option ρ :=
  match iso with
  | none => none
  | some s => l.find? (fun r => key r = some s)

/-- The persecution value joined onto a base row before filling: `none`
when the row is unmatched in the Open Doors table or the matched value is
itself null. -/
def joined_persecution (odRows : List OpenDoorsRow) (j : JoshuaRow) : Option ℚ :=
  (find_join j.iso_alpha_3 OpenDoorsRow.iso_alpha_3 odRows).bind OpenDoorsRow.persecution_score

/-- The persecution rank joined onto a base row. -/
def joined_persecution_rank (odRows : List OpenDoorsRow) (j : JoshuaRow) : Option ℚ :=
  (find_join j.iso_alpha_3 OpenDoorsRow.iso_alpha_3 odRows).bind OpenDoorsRow.persecution_rank

/-- The TTDI value joined onto a base row before the median fill. -/
def joined_ttdi (wefRows : List WefRow) (j : JoshuaRow) : Option ℚ :=
  (find_join j.iso_alpha_3 WefRow.iso_alpha_3 wefRows).bind WefRow.ttdi_score

/-- The TTDI rank joined onto a base row. -/
def joined_ttdi_rank (wefRows : List WefRow) (j : JoshuaRow) : Option ℚ :=
  (find_join j.iso_alpha_3 WefRow.iso_alpha_3 wefRows).bind WefRow.ttdi_rank

/-- The population median used by the TTDI fill: the median of the non-null
joined `ttdi_score` values over the full merged population (computed once,
`processors.py` line 160). -/
def ttdi_fill_median (joshRows : List JoshuaRow) (wefRows : List WefRow) : Option ℚ :=
  medianQ (joshRows.map (joined_ttdi wefRows))

/-- The sport flags of one merged row: the matched row's booleans, or all
`False` for a country absent from the availability table
(`merge_action_sports`, fill with `False` then cast to bool). -/
def joined_sport_flags (sports : SportsTable) (j : JoshuaRow) : List Bool :=
  match find_join j.iso_alpha_3 SportsRow.iso_alpha_3 sports.rows with
  | some sr => sr.sport_values
  | none => List.replicate sports.sport_columns.length false

/-- One output row of `merge_all_data` (`src/data/processors.py` lines
116-202), built from a base-population row:
persecution null → 0, `legal_openness = 100 - persecution_score`,
ttdi null → population median of the joined non-null values, sport flags
null → `False`.  When the WEF table is empty its join is skipped and no
`ttdi_score` column exists (`ttdi_score := none` together with
`has_ttdi := false` at the table level); likewise for the sports table. -/
def build_merged_row (joshRows : List JoshuaRow) (odRows : List OpenDoorsRow)
    (wefRows : List WefRow) (sports : SportsTable) (j : JoshuaRow) : MergedRow :=
  let pers := (joined_persecution odRows j).getD 0
  { country := j.country
    iso_alpha_3 := j.iso_alpha_3
    population := j.population
    pct_evangelical := j.pct_evangelical
    pct_christian := j.pct_christian
    pct_unreached := j.pct_unreached
    unreached_groups := j.unreached_groups
    continent := j.continent
    persecution_score := pers
    persecution_rank := joined_persecution_rank odRows j
    legal_openness := 100 - pers
    ttdi_score :=
      if wefRows.isEmpty then none
      else
        match joined_ttdi wefRows j with
        | some v => some v
        | none => ttdi_fill_median joshRows wefRows
    ttdi_rank := if wefRows.isEmpty then none else joined_ttdi_rank wefRows j
    sport_flags := if sports.rows.isEmpty then [] else joined_sport_flags sports j }

/-- `merge_all_data` (`src/data/processors.py`).  The persecution fill at
line 152 accesses the `persecution_score` column unconditionally, which
raises a `KeyError` when the Open Doors table was empty (its join was
skipped, so the column does not exist); that failure is modelled as
`none`. -/
def merge_all_data (joshRows : List JoshuaRow) (odRows : List OpenDoorsRow)
    (wefRows : List WefRow) (sports : SportsTable) : Option MergedTable :=
  if odRows.isEmpty then none
  else some
    { rows := joshRows.map (build_merged_row joshRows odRows wefRows sports)
      has_ttdi := !wefRows.isEmpty
      has_sports := !sports.rows.isEmpty }

/-- `calculate_religious_need_score` (`src/data/processors.py` lines
205-224): `0.6 * pct_unreached.fillna(50) + 0.4 * (100 -
pct_christian.fillna(50))`, clipped to `[0, 100]`.  Total (never NaN). -/
def calculate_religious_need_score (rows : List MergedRow) : List ℚ :=
  rows.map (fun r =>
    clipQ 0 100 (0.6 * r.pct_unreached.getD 50 + 0.4 * (100 - r.pct_christian.getD 50)))

/-- `unreached_per_million` inside `calculate_missionary_gap_score`
(`src/data/processors.py` line 244):
`(unreached_groups.fillna(0) / population.fillna(1)) * 1_000_000`.
The division is a float division: it is non-finite when the (non-null)
population is `0`. -/
def unreached_per_million (r : MergedRow) : Option ℚ :=
  (odiv (r.unreached_groups.getD 0) (r.population.getD 1)).map (· * 1000000)

/-- The maximum observed `unreached_per_million` over the population
(pandas `Series.max`, line 250). -/
def max_upm (rows : List MergedRow) : Option ℚ :=
  seriesMax (rows.map unreached_per_million)

/-- The normalized `unreached_per_million` column (lines 250-254): divided
by the maximum observed value and scaled to `[0, 100]` when that maximum is
positive, otherwise a column of zeros. -/
def upm_normalized (rows : List MergedRow) : List (Option ℚ) :=
  match max_upm rows with
  | some m =>
    if 0 < m then (rows.map unreached_per_million).map (Option.map (fun x => x / m * 100))
    else rows.map (fun _ => some 0)
  | none => rows.map (fun _ => some 0)

/-- `calculate_missionary_gap_score` (`src/data/processors.py` lines
227-259): `0.5 * upm_normalized + 0.5 * clip(100 - pct_evangelical.fillna(0)
* 10, 0, 100)`, clipped to `[0, 100]`. -/
def calculate_missionary_gap_score (rows : List MergedRow) : List (Option ℚ) :=
  let low_evangelical := rows.map (fun r => clipQ 0 100 (100 - r.pct_evangelical.getD 0 * 10))
  (List.zipWith (fun n l => (oscale 0.5 n).map (· + 0.5 * l))
    (upm_normalized rows) low_evangelical).map (oclip 0 100)

/-- The legal-openness component used by both outreach scorers: the merged
table always carries the `legal_openness` column (non-null after the
merge), so the `fillna(100)` is the identity. -/
def legal_openness_component (rows : List MergedRow) : List ℚ :=
  rows.map MergedRow.legal_openness

/-- `OutreachWeights` (`src/scoring/outreach.py`), with the source's
default values. -/
structure OutreachWeights where
  religious_need : ℚ := 0.40
  missionary_gap : ℚ := 0.25
  legal_openness : ℚ := 0.35
deriving DecidableEq, Repr

/-- `OutreachScorer.calculate` (`src/scoring/outreach.py` lines 47-85):
clip each component to `[0, 100]`, take the weighted sum with the scorer's
weights (no renormalization), clip the result to `[0, 100]`. -/
def OutreachScorer.calculate (w : OutreachWeights) (T : MergedTable) : List (Option ℚ) :=
  let need := (calculate_religious_need_score T.rows).map (fun x => some (clipQ 0 100 x))
  let gap := (calculate_missionary_gap_score T.rows).map (oclip 0 100)
  let legal := (legal_openness_component T.rows).map (fun x => some (clipQ 0 100 x))
  (List.zipWith (ozipWith (· + ·))
    (List.zipWith (ozipWith (· + ·))
      (need.map (oscale w.religious_need))
      (gap.map (oscale w.missionary_gap)))
    (legal.map (oscale w.legal_openness))).map (oclip 0 100)

/-- `calculate_outreach_score` (`src/scoring/outreach.py` lines 113-123):
the scorer with default weights. -/
def calculate_outreach_score (T : MergedTable) : List (Option ℚ) :=
  OutreachScorer.calculate {} T

/-- The `ttdi_score` column filled with its own median
(`df['ttdi_score'].fillna(df['ttdi_score'].median())`). -/
def ttdi_filled (T : MergedTable) : List (Option ℚ) :=
  let col := T.rows.map MergedRow.ttdi_score
  col.map (fun v => match v with | some x => some x | none => medianQ col)

/-- `ActionSportsScorer.calculate` (`src/scoring/action_sports.py` lines
45-71): when the merged table has no `ttdi_score` column, a constant 50.0;
otherwise the median-filled TTDI column rescaled from the fixed domain
`[1, 6]` to `[0, 100]` by `min_max_normalize`. -/
def ActionSportsScorer.calculate (T : MergedTable) : List (Option ℚ) :=
  if T.has_ttdi then
    min_max_normalize (ttdi_filled T) (some 1) (some 6) 0 100 false
  else
    T.rows.map (fun _ => some 50)

/-- `calculate_action_sports_score` (`src/scoring/action_sports.py` lines
99-109). -/
def calculate_action_sports_score (T : MergedTable) : List (Option ℚ) :=
  ActionSportsScorer.calculate T

/-- `calculate_combined_score` (`src/scoring/combined.py` lines 12-41):
dispatch on the method string, clip to `[0, 100]`; an unrecognized method
raises `ValueError`.  `np.sqrt` on a float column is modelled by
`Rat.sqrt`; no theorem below depends on the value of a geometric-mean
combination, only on the dispatch and on the final clip. -/
def calculate_combined_score (action outreach : List (Option ℚ)) (method : String) :
    Except String (List (Option ℚ)) :=
  if method = "multiply" then
    .ok ((List.zipWith (ozipWith (fun a o => a * o / 100)) action outreach).map (oclip 0 100))
  else if method = "average" then
    .ok ((List.zipWith (ozipWith (fun a o => (a + o) / 2)) action outreach).map (oclip 0 100))
  else if method = "geometric_mean" then
    .ok ((List.zipWith (ozipWith (fun a o => Rat.sqrt (a * o))) action outreach).map (oclip 0 100))
  else
    .error ("Unknown combination method: " ++ method)

/-- One output row of the ranking engine: the three scores (rounded to one
decimal for display) and the three dense minimum ranks.  The ranking step
starts from `result = df.copy()`, so every merged column is carried
through; the two that matter downstream (they end in `_rank` and therefore
take part in the column test of `get_top_countries`) are the joined
`persecution_rank` and `ttdi_rank`, kept here as nullable fields. -/
structure RankedRow where
  country : String
  action_sports_score : ℚ
  outreach_score : ℚ
  combined_score : ℚ
  action_sports_rank : ℕ
  outreach_rank : ℕ
  combined_rank : ℕ
  persecution_rank : Option ℚ := none
  ttdi_rank : Option ℚ := none
deriving DecidableEq, Repr

/-- Extraction of a fully non-null column; `none` as soon as one entry is
NaN (modelling the `ValueError` of `astype(int)` on a NaN rank). -/
def seqO : List (Option ℚ) → Option (List ℚ)
  | [] => some []
  | none :: _ => none
  | some x :: xs => (seqO xs).map (x :: ·)

/-- The three unrounded score columns of `generate_rankings`
(`src/scoring/combined.py` lines 56-64): default action-sports scorer,
default outreach scorer, combined via the `multiply` method.  `none` when
any entry of any column is NaN — in that case the `astype(int)` on the rank
columns raises, so the whole computation fails. -/
def score_lists (T : MergedTable) : Option (List ℚ × List ℚ × List ℚ) :=
  let aCol := calculate_action_sports_score T
  let oCol := calculate_outreach_score T
  match calculate_combined_score aCol oCol "multiply" with
  | .error _ => none
  | .ok cCol => do
    let a ← seqO aCol
    let o ← seqO oCol
    let c ← seqO cCol
    pure (a, o, c)

/-- Build the output rows from the merged rows and the three unrounded
score columns: ranks by `rank(ascending=False, method='min')` from the
unrounded values, then each score rounded to one decimal
(`src/scoring/combined.py` lines 66-82); the joined `persecution_rank` and
`ttdi_rank` columns ride along via `result = df.copy()`. -/
def build_ranked_rows (rows : List MergedRow) (a o c : List ℚ) : List RankedRow :=
  (List.range rows.length).map (fun i =>
    { country := (rows.map MergedRow.country).getD i ""
      action_sports_score := round1 (a.getD i 0)
      outreach_score := round1 (o.getD i 0)
      combined_score := round1 (c.getD i 0)
      action_sports_rank := rankMin a (a.getD i 0)
      outreach_rank := rankMin o (o.getD i 0)
      combined_rank := rankMin c (c.getD i 0)
      persecution_rank := (rows.map MergedRow.persecution_rank).getD i none
      ttdi_rank := (rows.map MergedRow.ttdi_rank).getD i none })

/-- `df.sort_values('combined_rank')` (ascending). -/
def sort_by_combined_rank (rows : List RankedRow) : List RankedRow :=
  List.insertionSort (fun x y => x.combined_rank ≤ y.combined_rank) rows

/-- `generate_rankings` (`src/scoring/combined.py` lines 44-87). -/
def generate_rankings (T : MergedTable) : Option (List RankedRow) :=
  (score_lists T).map (fun (t : List ℚ × List ℚ × List ℚ) =>
    sort_by_combined_rank (build_ranked_rows T.rows t.1 t.2.1 t.2.2))

/-- The `_rank`-suffixed columns of a rankings table built from a merged
table: the joined `persecution_rank` (present whenever the merge
succeeded, since it requires a non-empty persecution table), the joined
`ttdi_rank` when the TTDI join happened, and the three score-rank columns
added by the ranking step.  The membership test of `get_top_countries`
concerns `f"{score_type}_rank"`, which can only match a column with this
suffix. -/
def rank_columns (hasTtdi : Bool) : List String :=
  ["persecution_rank"] ++ (if hasTtdi then ["ttdi_rank"] else [])
    ++ ["action_sports_rank", "outreach_rank", "combined_rank"]

/-- The (nullable) value of a rank column on a ranked row. -/
def rank_of (col : String) (r : RankedRow) : Option ℚ :=
  if col = "persecution_rank" then r.persecution_rank
  else if col = "ttdi_rank" then r.ttdi_rank
  else if col = "action_sports_rank" then some (r.action_sports_rank : ℚ)
  else if col = "outreach_rank" then some (r.outreach_rank : ℚ)
  else some (r.combined_rank : ℚ)

/-- `df.nsmallest(top_n, rank_col)`: rows whose value in the column is NaN
are dropped, the rest are sorted ascending (stable) and the first `top_n`
are returned. -/
def nsmallest (n : ℕ) (col : String) (rows : List RankedRow) : List RankedRow :=
  (List.insertionSort (fun x y => (rank_of col x).getD 0 ≤ (rank_of col y).getD 0)
    (rows.filter (fun r => (rank_of col r).isSome))).take n

/-- `get_top_countries` (`src/scoring/combined.py` lines 126-146): raises
`ValueError` when `f"{score_type}_rank"` is not a column of the rankings
table.  `hasTtdi` records whether the table carries the `ttdi_rank`
column (pandas column presence). -/
def get_top_countries (hasTtdi : Bool) (rows : List RankedRow) (score_type : String)
    (top_n : ℕ) : Except String (List RankedRow) :=
  let rank_col := score_type ++ "_rank"
  if rank_col ∈ rank_columns hasTtdi then .ok (nsmallest top_n rank_col rows)
  else .error ("Unknown score type: " ++ score_type)

/-- The per-continent natural-resources bonus of
`calculate_action_sports_score_weighted` (`app.py` lines 84-100). -/
def continent_bonus (c : String) : ℚ :=
  if c = "Oceania" then 20
  else if c = "Latin America" then 15
  else if c = "Africa" then 15
  else if c = "Europe" then 10
  else if c = "Asia" then 10
  else if c = "North America" then 10
  else 0

/-- Weight renormalization of the `app.py` scorers (`app.py` lines
102-107, 139-144): divide by the total when it is positive, otherwise keep
the weights unchanged. -/
def norm_weights3 (w1 w2 w3 : ℚ) : ℚ × ℚ × ℚ :=
  if 0 < w1 + w2 + w3 then
    (w1 / (w1 + w2 + w3), w2 / (w1 + w2 + w3), w3 / (w1 + w2 + w3))
  else (w1, w2, w3)

/-- `calculate_action_sports_score_weighted` (`app.py` lines 47-116):
tourism infrastructure (median-filled TTDI rescaled from `[1, 6]`, or a
constant 50 when the column is absent), safety (`100 - persecution`),
natural resources (60 plus continent bonus); weights renormalized to sum
to 1; each component clipped to `[0, 100]`; weighted sum clipped to
`[0, 100]`. -/
def calculate_action_sports_score_weighted (T : MergedTable)
    (tourism_infra_weight safety_weight natural_resources_weight : ℚ) : List (Option ℚ) :=
  let tourism : List (Option ℚ) :=
    if T.has_ttdi then min_max_normalize (ttdi_filled T) (some 1) (some 6) 0 100 false
    else T.rows.map (fun _ => some 50)
  let safety : List (Option ℚ) := T.rows.map (fun r => some (100 - r.persecution_score))
  let natural : List (Option ℚ) := T.rows.map (fun r => some (60 + continent_bonus r.continent))
  let w := norm_weights3 tourism_infra_weight safety_weight natural_resources_weight
  (List.zipWith (ozipWith (· + ·))
    (List.zipWith (ozipWith (· + ·))
      ((tourism.map (oclip 0 100)).map (oscale w.1))
      ((safety.map (oclip 0 100)).map (oscale w.2.1)))
    ((natural.map (oclip 0 100)).map (oscale w.2.2))).map (oclip 0 100)

/-- `calculate_outreach_score_weighted` (`app.py` lines 119-153): same
components as `OutreachScorer.calculate` but the weights are renormalized
to sum to 1. -/
def calculate_outreach_score_weighted (T : MergedTable)
    (religious_need_weight missionary_gap_weight legal_openness_weight : ℚ) : List (Option ℚ) :=
  let need := (calculate_religious_need_score T.rows).map (fun x => some (clipQ 0 100 x))
  let gap := (calculate_missionary_gap_score T.rows).map (oclip 0 100)
  let legal := (legal_openness_component T.rows).map (fun x => some (clipQ 0 100 x))
  let w := norm_weights3 religious_need_weight missionary_gap_weight legal_openness_weight
  (List.zipWith (ozipWith (· + ·))
    (List.zipWith (ozipWith (· + ·))
      (need.map (oscale w.1))
      (gap.map (oscale w.2.1)))
    (legal.map (oscale w.2.2))).map (oclip 0 100)

/-- `calculate_combined_score_weighted` (`app.py` lines 156-178): the
`multiply` and `weighted_average` methods are recognized; any other method
string silently falls into the final `else` branch, which computes the
`multiply` combination — no error is raised. -/
def calculate_combined_score_weighted (action outreach : List (Option ℚ))
    (action_weight outreach_weight : ℚ) (method : String) : List (Option ℚ) :=
  if method = "multiply" then
    (List.zipWith (ozipWith (fun a o => a * o / 100)) action outreach).map (oclip 0 100)
  else if method = "weighted_average" then
    let total := action_weight + outreach_weight
    let wa := if 0 < total then action_weight / total else action_weight
    let wo := if 0 < total then outreach_weight / total else outreach_weight
    (List.zipWith (ozipWith (fun a o => wa * a + wo * o)) action outreach).map (oclip 0 100)
  else
    (List.zipWith (ozipWith (fun a o => a * o / 100)) action outreach).map (oclip 0 100)

/-- The three unrounded score columns of `generate_rankings_with_weights`
(`app.py` lines 190-215); `none` when any entry is NaN (the rank
`astype(int)` raises). -/
def score_lists_weighted (T : MergedTable) (tw sw nw rn mg lo aw ow : ℚ)
    (method : String) : Option (List ℚ × List ℚ × List ℚ) :=
  let aCol := calculate_action_sports_score_weighted T tw sw nw
  let oCol := calculate_outreach_score_weighted T rn mg lo
  let cCol := calculate_combined_score_weighted aCol oCol aw ow method
  do
    let a ← seqO aCol
    let o ← seqO oCol
    let c ← seqO cCol
    pure (a, o, c)

/-- `generate_rankings_with_weights` (`app.py` lines 181-235): weighted
scores, ranks from the unrounded values, scores rounded to one decimal,
output sorted ascending by `combined_rank`. -/
def generate_rankings_with_weights (T : MergedTable) (tw sw nw rn mg lo aw ow : ℚ)
    (method : String) : Option (List RankedRow) :=
  (score_lists_weighted T tw sw nw rn mg lo aw ow method).map
    (fun (t : List ℚ × List ℚ × List ℚ) =>
      sort_by_combined_rank (build_ranked_rows T.rows t.1 t.2.1 t.2.2))

/-- `get_top_countries` of `app.py` (lines 431-436): an unknown score type
silently returns the first `top_n` rows of the table instead of raising. -/
def app_get_top_countries (hasTtdi : Bool) (rows : List RankedRow) (score_type : String)
    (top_n : ℕ) : List RankedRow :=
  let rank_col := score_type ++ "_rank"
  if rank_col ∈ rank_columns hasTtdi then nsmallest top_n rank_col rows
  else rows.take top_n

/-- A small but fully populated merged table used to instantiate the general
theorems at concrete inputs. -/
def sampleT : MergedTable :=
  { rows :=
      [ { country := "Alpha", iso_alpha_3 := some "ALP", population := some 1000000,
          pct_evangelical := some 2, pct_christian := some 30, pct_unreached := some 40,
          unreached_groups := some 10, continent := "Asia", persecution_score := 20,
          persecution_rank := some 5, legal_openness := 80, ttdi_score := some 4,
          ttdi_rank := some 7, sport_flags := [true, false] },
        { country := "Beta", iso_alpha_3 := some "BET", population := some 500000,
          pct_evangelical := none, pct_christian := some 80, pct_unreached := some 5,
          unreached_groups := none, continent := "Europe", persecution_score := 0,
          persecution_rank := none, legal_openness := 100, ttdi_score := none,
          ttdi_rank := none, sport_flags := [false, false] } ]
    has_ttdi := true
    has_sports := true }

/-- A merged row whose (non-null) population is zero: the missionary-gap
division is a division by zero on it. -/
def c6_zero_pop_row : MergedRow :=
  { country := "Zed", iso_alpha_3 := some "ZED", population := some 0,
    pct_evangelical := none, pct_christian := none, pct_unreached := none,
    unreached_groups := some 5, continent := "Asia", persecution_score := 0,
    persecution_rank := none, legal_openness := 100, ttdi_score := none,
    ttdi_rank := none, sport_flags := [] }

/-- Modelled from the spec: the formula the claim states for
`unreached_groups_per_million`, namely
`unreached_groups / max(population, 1) × 1_000_000` — a total function,
defined (finite) also at zero or null population. -/
def claimed_upm (r : MergedRow) : ℚ :=
  r.unreached_groups.getD 0 / max (r.population.getD 0) 1 * 1000000

/-- A merged row with a null population (filled by 1 in the gap formula). -/
def c6_null_pop_row : MergedRow :=
  { country := "Enn", iso_alpha_3 := some "ENN", population := none,
    pct_evangelical := none, pct_christian := none, pct_unreached := none,
    unreached_groups := some 3, continent := "Africa", persecution_score := 0,
    persecution_rank := none, legal_openness := 100, ttdi_score := none,
    ttdi_rank := none, sport_flags := [] }

/-- A merged row whose per-million value is zero. -/
def c6_zero_upm_row : MergedRow :=
  { country := "Oh", iso_alpha_3 := some "OHH", population := some 2,
    pct_evangelical := none, pct_christian := none, pct_unreached := none,
    unreached_groups := some 0, continent := "Africa", persecution_score := 0,
    persecution_rank := none, legal_openness := 100, ttdi_score := none,
    ttdi_rank := none, sport_flags := [] }

/-- A two-row merged table with no TTDI column and distinct outreach
scores, used to instantiate the ranking theorems. -/
def t2w : MergedTable :=
  { rows :=
      [ { country := "One", iso_alpha_3 := some "ONE", population := some 1000000,
          pct_evangelical := none, pct_christian := some 61, pct_unreached := some 37,
          unreached_groups := none, continent := "Asia", persecution_score := 0,
          persecution_rank := none, legal_openness := 100, ttdi_score := none,
          ttdi_rank := none, sport_flags := [] },
        { country := "Two", iso_alpha_3 := some "TWO", population := some 1000000,
          pct_evangelical := none, pct_christian := some 11, pct_unreached := some 60,
          unreached_groups := none, continent := "Asia", persecution_score := 0,
          persecution_rank := none, legal_openness := 100, ttdi_score := none,
          ttdi_rank := none, sport_flags := [] } ]
    has_ttdi := false
    has_sports := false }

/-- A two-row merged table with TTDI values chosen so that the two action
scores differ but round to the same display value. -/
def t10 : MergedTable :=
  { rows :=
      [ { country := "R1", iso_alpha_3 := some "RRA", population := none,
          pct_evangelical := none, pct_christian := none, pct_unreached := none,
          unreached_groups := none, continent := "Nowhere", persecution_score := 0,
          persecution_rank := none, legal_openness := 100,
          ttdi_score := some (1751 / 500), ttdi_rank := none, sport_flags := [] },
        { country := "R2", iso_alpha_3 := some "RRB", population := none,
          pct_evangelical := none, pct_christian := none, pct_unreached := none,
          unreached_groups := none, continent := "Nowhere", persecution_score := 0,
          persecution_rank := none, legal_openness := 100,
          ttdi_score := some (7001 / 2000), ttdi_rank := none, sport_flags := [] } ]
    has_ttdi := true
    has_sports := false }

/-- A one-row merged table whose scores expose the rounding order of the
combined score. -/
def t5 : MergedTable :=
  { rows :=
      [ { country := "X", iso_alpha_3 := some "XXX", population := none,
          pct_evangelical := some 3, pct_christian := some 60, pct_unreached := some 37,
          unreached_groups := none, continent := "Nowhere", persecution_score := 0,
          persecution_rank := none, legal_openness := 100,
          ttdi_score := some (8781 / 2500), ttdi_rank := none, sport_flags := [] } ]
    has_ttdi := true
    has_sports := false }

/-- Concrete base rows for the merge witness. -/
def joshW : List JoshuaRow :=
  [ { country := "Jay", iso_alpha_3 := some "JJJ", population := some 10,
      pct_evangelical := some 1, pct_christian := some 2, pct_unreached := some 3,
      unreached_groups := some 4, continent := "Asia" },
    { country := "Kay", iso_alpha_3 := some "KKK", population := none,
      pct_evangelical := none, pct_christian := none, pct_unreached := none,
      unreached_groups := none, continent := "Africa" } ]

/-- A persecution table with no row for the base countries. -/
def odW : List OpenDoorsRow :=
  [ { iso_alpha_3 := some "QQQ", persecution_score := some 77, persecution_rank := some 1 } ]

/-- A TTDI table covering only the first base country. -/
def wefW : List WefRow :=
  [ { iso_alpha_3 := some "JJJ", ttdi_score := some 4, ttdi_rank := some 9 } ]

/-- An activity table covering only the first base country. -/
def sportsW : SportsTable :=
  { sport_columns := ["surfing", "skiing"],
    rows := [ { iso_alpha_3 := some "JJJ", sport_values := [true, false] } ] }

/-- The merged table expected from the witness inputs. -/
def mergedW : MergedTable :=
  { rows :=
      [ { country := "Jay", iso_alpha_3 := some "JJJ", population := some 10,
          pct_evangelical := some 1, pct_christian := some 2, pct_unreached := some 3,
          unreached_groups := some 4, continent := "Asia", persecution_score := 0,
          persecution_rank := none, legal_openness := 100, ttdi_score := some 4,
          ttdi_rank := some 9, sport_flags := [true, false] },
        { country := "Kay", iso_alpha_3 := some "KKK", population := none,
          pct_evangelical := none, pct_christian := none, pct_unreached := none,
          unreached_groups := none, continent := "Africa", persecution_score := 0,
          persecution_rank := none, legal_openness := 100, ttdi_score := some 4,
          ttdi_rank := none, sport_flags := [false, false] } ]
    has_ttdi := true
    has_sports := true }

/-- The 3-country religious-demographics table of the end-to-end scenario:
A (90% Christian, 0% unreached, population 10M), B (10% Christian, 60%
unreached, population 1M), C (50% Christian, 30% unreached, population
5M). -/
def josh9 : List JoshuaRow :=
  [ { country := "A", iso_alpha_3 := some "AAA", population := some 10000000,
      pct_evangelical := none, pct_christian := some 90, pct_unreached := some 0,
      unreached_groups := none, continent := "Asia" },
    { country := "B", iso_alpha_3 := some "BBB", population := some 1000000,
      pct_evangelical := none, pct_christian := some 10, pct_unreached := some 60,
      unreached_groups := none, continent := "Asia" },
    { country := "C", iso_alpha_3 := some "CCC", population := some 5000000,
      pct_evangelical := none, pct_christian := some 50, pct_unreached := some 30,
      unreached_groups := none, continent := "Asia" } ]

/-- A persecution table with no row for A, B or C (it cannot be empty: an
empty Open Doors table makes `merge_all_data` raise a `KeyError` at the
unconditional persecution-fill). -/
def od9 : List OpenDoorsRow :=
  [ { iso_alpha_3 := some "XXX", persecution_score := some 50, persecution_rank := some 1 } ]

/-- An empty activity-availability table. -/
def sports9 : SportsTable := { sport_columns := [], rows := [] }

/-- The merged table of the end-to-end scenario: persecution filled with 0,
`legal_openness = 100`, no TTDI column (the empty WEF table's join is
skipped), no sport columns. -/
def t9 : MergedTable :=
  { rows :=
      [ { country := "A", iso_alpha_3 := some "AAA", population := some 10000000,
          pct_evangelical := none, pct_christian := some 90, pct_unreached := some 0,
          unreached_groups := none, continent := "Asia", persecution_score := 0,
          persecution_rank := none, legal_openness := 100, ttdi_score := none,
          ttdi_rank := none, sport_flags := [] },
        { country := "B", iso_alpha_3 := some "BBB", population := some 1000000,
          pct_evangelical := none, pct_christian := some 10, pct_unreached := some 60,
          unreached_groups := none, continent := "Asia", persecution_score := 0,
          persecution_rank := none, legal_openness := 100, ttdi_score := none,
          ttdi_rank := none, sport_flags := [] },
        { country := "C", iso_alpha_3 := some "CCC", population := some 5000000,
          pct_evangelical := none, pct_christian := some 50, pct_unreached := some 30,
          unreached_groups := none, continent := "Asia", persecution_score := 0,
          persecution_rank := none, legal_openness := 100, ttdi_score := none,
          ttdi_rank := none, sport_flags := [] } ]
    has_ttdi := false
    has_sports := false }

/-- A ranked row carrying joined persecution and TTDI ranks, used to
exhibit the silent behaviour of `get_top_countries` on the rank columns
that ride along from the merge. -/
def c4_row : RankedRow :=
  { country := "Pee", action_sports_score := 1, outreach_score := 2, combined_score := 3,
    action_sports_rank := 1, outreach_rank := 1, combined_rank := 1,
    persecution_rank := some 7, ttdi_rank := some 9 }

/-- Helper for evaluating `round1` when the scaled value is below the
half-way point. -/
theorem round1_eq_of_lt_half (x : ℚ) (z : ℤ) (h1 : (z : ℚ) ≤ x * 10)
    (h2 : x * 10 < (z : ℚ) + 1 / 2) : round1 x = (z : ℚ) / 10 := by
  have hfl : ⌊x * 10⌋ = z := by
    rw [Int.floor_eq_iff]
    constructor
    · exact h1
    · push_cast
      linarith
  have hne : ¬(x * 10 - (z : ℚ) = 1 / 2) := by
    intro h
    linarith
  have hro : round (x * 10) = z := by
    rw [round_eq, Int.floor_eq_iff]
    constructor
    · push_cast
      linarith
    · push_cast
      linarith
  unfold round1 rhe
  rw [hfl, if_neg hne, hro]

/-- Helper for evaluating `round1` when the scaled value is above the
half-way point. -/
theorem round1_eq_of_gt_half (x : ℚ) (z : ℤ) (h1 : (z : ℚ) + 1 / 2 < x * 10)
    (h2 : x * 10 < (z : ℚ) + 1) : round1 x = ((z : ℚ) + 1) / 10 := by
  have hfl : ⌊x * 10⌋ = z := by
    rw [Int.floor_eq_iff]
    constructor
    · linarith
    · push_cast
      linarith
  have hne : ¬(x * 10 - (z : ℚ) = 1 / 2) := by
    intro h
    linarith
  have hro : round (x * 10) = z + 1 := by
    rw [round_eq, Int.floor_eq_iff]
    constructor
    · push_cast
      linarith
    · push_cast
      linarith
  unfold round1 rhe
  rw [hfl, if_neg hne, hro]
  push_cast
  ring

/-- `round1` is the identity on values that already have one decimal. -/
theorem round1_tenth (z : ℤ) : round1 ((z : ℚ) / 10) = (z : ℚ) / 10 := by
  have hx : ((z : ℚ) / 10) * 10 = (z : ℚ) := by ring
  have hfl : ⌊((z : ℚ) / 10) * 10⌋ = z := by rw [hx, Int.floor_intCast]
  have hne : ¬(((z : ℚ) / 10) * 10 - (z : ℚ) = 1 / 2) := by
    rw [hx]
    simp
  have hro : round (((z : ℚ) / 10) * 10) = z := by rw [hx, round_intCast]
  unfold round1 rhe
  rw [hfl, if_neg hne, hro]

example : min_max_normalize [some 2, none, some 2] (some 2) (some 2) 0 100 false
    = [some 100, some 100, some 100] := by
  norm_num [min_max_normalize, effective_min, effective_max]

example : rankMin [3, 5, 5, 1] 5 = 1 := by
  norm_num [rankMin, sortDescQ, List.insertionSort, List.orderedInsert]

example : rankMin [3, 5, 5, 1] 3 = 3 := by
  norm_num [rankMin, sortDescQ, List.insertionSort, List.orderedInsert]

example : medianQ [some 1, none, some 3, some 10, some 4] = some (7 / 2) := by
  norm_num [medianQ, sortAscQ, somesQ, List.insertionSort, List.orderedInsert]

example : round1 (296613944 / 10000000) = 297 / 10 := by
  have h := round1_eq_of_gt_half (296613944 / 10000000) 296 (by norm_num) (by norm_num)
  rw [h]
  norm_num

example : round1 (29618 / 1000) = 296 / 10 := by
  have h := round1_eq_of_lt_half (29618 / 1000) 296 (by norm_num) (by norm_num)
  rw [h]
  norm_num

theorem le_clipQ (lo hi x : ℚ) (h : lo ≤ hi) : lo ≤ clipQ lo hi x :=
  le_min (le_max_right x lo) h

theorem clipQ_le (lo hi x : ℚ) : clipQ lo hi x ≤ hi := min_le_right _ _

theorem takeWhile_length_of_sortedDesc (x : ℚ) (l : List ℚ)
    (h : List.Sorted (fun a b => b ≤ a) l) :
    (l.takeWhile (fun y => decide (x < y))).length = l.countP (fun y => decide (x < y)) := by
  induction l with
  | nil => simp
  | cons a t ih =>
    rw [List.sorted_cons] at h
    obtain ⟨ha, ht⟩ := h
    by_cases hxa : x < a
    · simp only [List.takeWhile_cons, List.countP_cons, decide_eq_true hxa, if_true,
        List.length_cons, ih ht]
    · have hz : t.countP (fun y => decide (x < y)) = 0 := by
        rw [List.countP_eq_zero]
        intro y hy
        simp only [decide_eq_true_eq]
        intro hxy
        exact hxa (lt_of_lt_of_le hxy (ha y hy))
      simp [List.takeWhile_cons, hxa, List.countP_cons, hz]

/-- pandas `rank(ascending=False, method='min')`: the rank of `x` in the
column `l` is one plus the number of entries strictly greater than `x`. -/
theorem rankMin_eq (l : List ℚ) (x : ℚ) :
    rankMin l x = 1 + l.countP (fun y => decide (x < y)) := by
  haveI : IsTotal ℚ (fun a b => b ≤ a) := ⟨fun a b => le_total b a⟩
  haveI : IsTrans ℚ (fun a b => b ≤ a) := ⟨fun _ _ _ h1 h2 => le_trans h2 h1⟩
  unfold rankMin sortDescQ
  rw [takeWhile_length_of_sortedDesc x _ (List.sorted_insertionSort _ l),
    (List.perm_insertionSort (fun a b => b ≤ a) l).countP_eq]

/-- Records holding the maximum score receive rank 1. -/
theorem rankMin_of_max (l : List ℚ) (x : ℚ) (hmax : ∀ z ∈ l, z ≤ x) :
    rankMin l x = 1 := by
  rw [rankMin_eq]
  have h0 : l.countP (fun y => decide (x < y)) = 0 := by
    rw [List.countP_eq_zero]
    intro y hy
    simp only [decide_eq_true_eq]
    exact not_lt.2 (hmax y hy)
  omega

/-- The best record strictly below the maximum receives rank `k + 1` where
`k` counts the records tied at the maximum. -/
theorem rankMin_of_next (l : List ℚ) (x y : ℚ) (hmax : ∀ z ∈ l, z ≤ x)
    (hyx : y < x) (hnext : ∀ z ∈ l, z < x → z ≤ y) :
    rankMin l y = l.countP (fun z => decide (z = x)) + 1 := by
  rw [rankMin_eq]
  have hc : l.countP (fun z => decide (y < z)) = l.countP (fun z => decide (z = x)) := by
    apply List.countP_congr
    intro z hz
    have hiff : y < z ↔ z = x := by
      constructor
      · intro hyz
        by_contra hne
        have hzx : z < x := lt_of_le_of_ne (hmax z hz) hne
        exact absurd hyz (not_lt.2 (hnext z hz hzx))
      · intro he
        exact he ▸ hyx
    simp [hiff]
  omega

theorem seqO_eq_some (l : List (Option ℚ)) (l' : List ℚ) :
    seqO l = some l' ↔ l = l'.map some := by
  induction l generalizing l' with
  | nil => cases l' <;> simp [seqO]
  | cons h t ih =>
    cases h with
    | none =>
      cases l' <;> simp [seqO]
    | some x =>
      cases l' with
      | nil => simp [seqO]
      | cons y t' =>
        simp only [seqO, Option.map_eq_some', List.map_cons, List.cons.injEq,
          Option.some.injEq]
        constructor
        · rintro ⟨u, hu, hxy, hut⟩
          exact ⟨hxy, (ih t').1 (hut ▸ hu)⟩
        · rintro ⟨hxy, ht⟩
          exact ⟨t', (ih t').2 ht, hxy, rfl⟩

/-- Every non-null output of `min_max_normalize` lies in the target range. -/
theorem min_max_normalize_mem_bounds (values : List (Option ℚ)) (minVal maxVal : Option ℚ)
    (targetMin targetMax : ℚ) (invert : Bool) (hle : targetMin ≤ targetMax) :
    ∀ v ∈ min_max_normalize values minVal maxVal targetMin targetMax invert,
      ∀ q, v = some q → targetMin ≤ q ∧ q ≤ targetMax := by
  intro v hv q hq
  unfold min_max_normalize at hv
  split at hv
  · split at hv
    · obtain ⟨u, _, rfl⟩ := List.mem_map.1 hv
      obtain rfl : targetMax = q := by simpa using hq
      exact ⟨hle, le_refl _⟩
    · obtain ⟨u, _, rfl⟩ := List.mem_map.1 hv
      cases u with
      | none => exact absurd hq (by simp)
      | some x =>
        obtain rfl : clipQ targetMin targetMax _ = q := by simpa using hq
        exact ⟨le_clipQ _ _ _ hle, clipQ_le _ _ _⟩
  · obtain ⟨u, _, rfl⟩ := List.mem_map.1 hv
    exact absurd hq (by simp)

/-- C7: whenever the effective scaling minimum equals the effective scaling
maximum, `min_max_normalize` returns `target_max` at every position (no
division-by-zero error is raised — the function is total); and in every
case each non-null output value lies in `[target_min, target_max]`. -/
theorem C7_min_max_normalize_saturation_and_bounds
    (values : List (Option ℚ)) (minVal maxVal : Option ℚ)
    (targetMin targetMax : ℚ) (invert : Bool)
    (hle : targetMin ≤ targetMax) :
    (∀ m, effective_min values minVal = some m → effective_max values maxVal = some m →
      min_max_normalize values minVal maxVal targetMin targetMax invert
        = values.map (fun _ => some targetMax)) ∧
    (∀ v ∈ min_max_normalize values minVal maxVal targetMin targetMax invert,
      ∀ q, v = some q → targetMin ≤ q ∧ q ≤ targetMax) := by
  constructor
  · intro m h1 h2
    unfold min_max_normalize
    rw [h1, h2]
    simp
  · exact min_max_normalize_mem_bounds values minVal maxVal targetMin targetMax invert hle

/-- Witness for C7 at a concrete column whose observed minimum and maximum
coincide. -/
theorem C7_witness :
    ((0 : ℚ) ≤ 100) ∧
    (effective_min [some 2, none, some 2] none = some 2) ∧
    (effective_max [some 2, none, some 2] none = some 2) ∧
    (min_max_normalize [some 2, none, some 2] none none 0 100 false
      = [some 100, some 100, some 100]) ∧
    (∀ v ∈ min_max_normalize [some 2, none, some 2] none none 0 100 false,
      ∀ q, v = some q → 0 ≤ q ∧ q ≤ 100) := by
  have h := C7_min_max_normalize_saturation_and_bounds
    [some 2, none, some 2] none none 0 100 false (by norm_num)
  have hmn : effective_min [some 2, none, some 2] none = some 2 := by
    norm_num [effective_min, seriesMin, somesQ, List.filterMap_cons, List.filterMap_nil]
  have hmx : effective_max [some 2, none, some 2] none = some 2 := by
    norm_num [effective_max, seriesMax, somesQ, List.filterMap_cons, List.filterMap_nil]
  exact ⟨by norm_num, hmn, hmx, by rw [h.1 2 hmn hmx]; rfl, h.2⟩

/-- The weight renormalization of the `app.py` scorers is invariant under
scaling all weights by a common positive factor. -/
theorem norm_weights3_smul (c w1 w2 w3 : ℚ) (hc : 0 < c) (hsum : 0 < w1 + w2 + w3) :
    norm_weights3 (c * w1) (c * w2) (c * w3) = norm_weights3 w1 w2 w3 := by
  have ht : c * w1 + c * w2 + c * w3 = c * (w1 + w2 + w3) := by ring
  have hpos : 0 < c * w1 + c * w2 + c * w3 := by
    rw [ht]
    exact mul_pos hc hsum
  unfold norm_weights3
  rw [if_pos hpos, if_pos hsum, ht]
  have hcne : c ≠ 0 := ne_of_gt hc
  rw [mul_div_mul_left w1 _ hcne, mul_div_mul_left w2 _ hcne, mul_div_mul_left w3 _ hcne]

/-- C8: scaling all component weights by a common positive factor leaves
both weighted composite scores unchanged; in particular weights `(4, 3, 3)`
give the same scores as `(0.4, 0.3, 0.3)`. -/
theorem C8_weight_scale_invariance (T : MergedTable) (c w1 w2 w3 : ℚ)
    (hc : 0 < c) (hsum : 0 < w1 + w2 + w3) :
    calculate_action_sports_score_weighted T (c * w1) (c * w2) (c * w3)
      = calculate_action_sports_score_weighted T w1 w2 w3 ∧
    calculate_outreach_score_weighted T (c * w1) (c * w2) (c * w3)
      = calculate_outreach_score_weighted T w1 w2 w3 := by
  have hw := norm_weights3_smul c w1 w2 w3 hc hsum
  constructor
  · unfold calculate_action_sports_score_weighted
    rw [hw]
  · unfold calculate_outreach_score_weighted
    rw [hw]

/-- Witness for C8: weights `(4, 3, 3)` (that is, `10 · (0.4, 0.3, 0.3)`)
give the same score columns as `(0.4, 0.3, 0.3)` on a concrete table. -/
theorem C8_witness :
    ((0 : ℚ) < 10) ∧ ((0 : ℚ) < 2 / 5 + 3 / 10 + 3 / 10) ∧
    (calculate_action_sports_score_weighted sampleT 4 3 3
      = calculate_action_sports_score_weighted sampleT (2 / 5) (3 / 10) (3 / 10) ∧
    calculate_outreach_score_weighted sampleT 4 3 3
      = calculate_outreach_score_weighted sampleT (2 / 5) (3 / 10) (3 / 10)) := by
  refine ⟨by norm_num, by norm_num, ?_⟩
  have h := C8_weight_scale_invariance sampleT 10 (2 / 5) (3 / 10) (3 / 10)
    (by norm_num) (by norm_num)
  constructor
  · have h1 := h.1
    norm_num at h1
    exact h1
  · have h2 := h.2
    norm_num at h2
    exact h2

/-- C4 counterexample: two silent paths the claim says do not exist.  The
app-level combined-score computation `calculate_combined_score_weighted`
does not signal an invalid-argument error for an unrecognized method
string — it silently computes the `multiply` combination (`app.py` lines
175-176).  And `get_top_countries` does not raise for the unknown score
dimensions `"persecution"` and `"ttdi"`: their rank columns ride along
from the merge, so the column test passes and rows are silently
returned. -/
theorem C4_counterexample :
    (calculate_combined_score_weighted [some 100] [some 80] (1 / 2) (1 / 2) "harmonic"
      = calculate_combined_score_weighted [some 100] [some 80] (1 / 2) (1 / 2) "multiply" ∧
    calculate_combined_score_weighted [some 100] [some 80] (1 / 2) (1 / 2) "harmonic"
      = [some 80]) ∧
    get_top_countries true [c4_row] "persecution" 5 = .ok [c4_row] ∧
    get_top_countries true [c4_row] "ttdi" 5 = .ok [c4_row] := by
  refine ⟨⟨?_, ?_⟩, ?_, ?_⟩
  · rfl
  · norm_num [calculate_combined_score_weighted, ozipWith, oclip, clipQ,
      List.zipWith, Option.map]
    decide
  · rfl
  · rfl

/-- C4 amended: the core `calculate_combined_score` of
`src/scoring/combined.py` raises `ValueError` on every unrecognized
combination method; `get_top_countries` raises `ValueError` exactly for the
score types whose `{score_type}_rank` column is absent from the rankings
table — which, because the joined `persecution_rank` and `ttdi_rank`
columns ride along from the merge, does **not** include the unknown
dimensions `"persecution"` and `"ttdi"`: those silently return rows; and
the app-level `calculate_combined_score_weighted` silently computes the
`multiply` combination for every unrecognized method string. -/
theorem C4_invalid_argument_handling (hasTtdi : Bool) (a o : List (Option ℚ))
    (rows : List RankedRow) (method score_type : String) (wa wo : ℚ) (n : ℕ)
    (h1 : method ≠ "multiply") (h2 : method ≠ "average") (h3 : method ≠ "geometric_mean")
    (h4 : method ≠ "weighted_average")
    (h5 : score_type ++ "_rank" ∉ rank_columns hasTtdi) :
    calculate_combined_score a o method
      = .error ("Unknown combination method: " ++ method) ∧
    get_top_countries hasTtdi rows score_type n
      = .error ("Unknown score type: " ++ score_type) ∧
    get_top_countries hasTtdi rows "persecution" n
      = .ok (nsmallest n "persecution_rank" rows) ∧
    get_top_countries true rows "ttdi" n = .ok (nsmallest n "ttdi_rank" rows) ∧
    calculate_combined_score_weighted a o wa wo method
      = (List.zipWith (ozipWith (fun x y => x * y / 100)) a o).map (oclip 0 100) := by
  refine ⟨?_, ?_, ?_, ?_, ?_⟩
  · unfold calculate_combined_score
    rw [if_neg h1, if_neg h2, if_neg h3]
  · unfold get_top_countries
    rw [if_neg h5]
  · unfold get_top_countries
    rw [if_pos (by cases hasTtdi <;> simp [rank_columns])]
    rfl
  · unfold get_top_countries
    rw [if_pos (by simp [rank_columns])]
    rfl
  · unfold calculate_combined_score_weighted
    rw [if_neg h1, if_neg h4]

/-- Witness for C4 at a concrete unknown method and score type. -/
theorem C4_witness :
    ("median" ≠ "multiply" ∧ "overall" ++ "_rank" ∉ rank_columns true) ∧
    (calculate_combined_score [some 100] [some 64] "median"
      = .error ("Unknown combination method: " ++ "median") ∧
    get_top_countries true [c4_row] "overall" 3
      = .error ("Unknown score type: " ++ "overall") ∧
    get_top_countries true [c4_row] "persecution" 3
      = .ok (nsmallest 3 "persecution_rank" [c4_row]) ∧
    get_top_countries true [c4_row] "ttdi" 3 = .ok (nsmallest 3 "ttdi_rank" [c4_row]) ∧
    calculate_combined_score_weighted [some 100] [some 64] (1 / 2) (1 / 2) "median"
      = (List.zipWith (ozipWith (fun x y => x * y / 100)) [some 100] [some 64]).map
          (oclip 0 100)) :=
  ⟨⟨by decide, by decide⟩,
   C4_invalid_argument_handling true [some 100] [some 64] [c4_row] "median" "overall"
     (1 / 2) (1 / 2) 3 (by decide) (by decide) (by decide) (by decide) (by decide)⟩

/-- C6 counterexample: on a record with population 0 and 5 unreached
groups, the code's `unreached_per_million` divides by zero (a non-finite
float, modelled `none`), while the claim's `max(population, 1)` formula
yields the finite value 5,000,000 — the code does not compute the claimed
formula. -/
theorem C6_counterexample :
    unreached_per_million c6_zero_pop_row = none ∧
    claimed_upm c6_zero_pop_row = 5000000 ∧
    unreached_per_million c6_zero_pop_row ≠ some (claimed_upm c6_zero_pop_row) := by
  refine ⟨?_, ?_, ?_⟩
  · norm_num [unreached_per_million, c6_zero_pop_row, odiv]
  · norm_num [claimed_upm, c6_zero_pop_row]
  · simp [unreached_per_million, c6_zero_pop_row, odiv]

/-- The non-null projection of an all-`some 0` column is a column of
zeros. -/
theorem somesQ_all_zero (l : List (Option ℚ)) (h : ∀ v ∈ l, v = some 0) :
    somesQ l = List.replicate l.length 0 := by
  induction l with
  | nil => rfl
  | cons a t ih =>
    have ha : a = some 0 := h a (List.mem_cons_self a t)
    have ht : ∀ v ∈ t, v = some 0 := fun v hv => h v (List.mem_cons_of_mem a hv)
    subst ha
    simp only [somesQ, List.filterMap_cons, id, List.length_cons, List.replicate_succ]
    have ih' := ih ht
    simp only [somesQ] at ih'
    rw [ih']

theorem foldl_max_zero (n : ℕ) : (List.replicate n (0 : ℚ)).foldl max 0 = 0 := by
  induction n with
  | zero => rfl
  | succ k ih => simp [List.replicate_succ, List.foldl_cons, max_self, ih]

/-- All-`some 0` columns have `seriesMax` zero (or are empty). -/
theorem seriesMax_all_zero (l : List (Option ℚ)) (h : ∀ v ∈ l, v = some 0) :
    l = [] ∨ seriesMax l = some 0 := by
  cases l with
  | nil => exact Or.inl rfl
  | cons a t =>
    right
    unfold seriesMax
    rw [somesQ_all_zero _ h, List.length_cons, List.replicate_succ]
    simp [foldl_max_zero]

/-- C6 amended: the missionary-gap per-million value is computed with the
null population filled by 1 (`fillna(1)`), so it is finite for every
null-population record; for a record whose population is the non-null
value 0 the division is a division by zero (non-finite result); and the
normalized column is all zeros whenever every record's per-million value
is 0 (so the maximum observed value is 0). -/
theorem C6_missionary_gap_division (r1 r2 : MergedRow) (rows : List MergedRow)
    (h1 : r1.population = none) (h2 : r2.population = some 0)
    (h3 : ∀ x ∈ rows, unreached_per_million x = some 0) :
    unreached_per_million r1 = some (r1.unreached_groups.getD 0 * 1000000) ∧
    unreached_per_million r2 = none ∧
    upm_normalized rows = rows.map (fun _ => some 0) := by
  refine ⟨?_, ?_, ?_⟩
  · unfold unreached_per_million odiv
    rw [h1]
    norm_num
  · unfold unreached_per_million odiv
    rw [h2]
    norm_num
  · rcases seriesMax_all_zero (rows.map unreached_per_million) (by
        intro v hv
        obtain ⟨x, hx, rfl⟩ := List.mem_map.1 hv
        exact h3 x hx) with hemp | hmax
    · have hrows : rows = [] := by
        cases rows with
        | nil => rfl
        | cons x xs => simp at hemp
      subst hrows
      rfl
    · unfold upm_normalized
      rw [show max_upm rows = some 0 from hmax]
      norm_num

/-- Witness for the amended C6 at concrete rows. -/
theorem C6_witness :
    (c6_null_pop_row.population = none ∧ c6_zero_pop_row.population = some 0 ∧
      (∀ x ∈ [c6_zero_upm_row], unreached_per_million x = some 0)) ∧
    (unreached_per_million c6_null_pop_row
        = some (c6_null_pop_row.unreached_groups.getD 0 * 1000000) ∧
      unreached_per_million c6_zero_pop_row = none ∧
      upm_normalized [c6_zero_upm_row] = [c6_zero_upm_row].map (fun _ => some 0)) := by
  have hz : ∀ x ∈ [c6_zero_upm_row], unreached_per_million x = some 0 := by
    intro x hx
    obtain rfl : x = c6_zero_upm_row := by simpa using hx
    norm_num [unreached_per_million, c6_zero_upm_row, odiv]
  exact ⟨⟨rfl, rfl, hz⟩,
    C6_missionary_gap_division c6_null_pop_row c6_zero_pop_row [c6_zero_upm_row] rfl rfl hz⟩

/-- Shape of a membership in the rows built by the ranking engine. -/
theorem mem_build_ranked_rows (rows : List MergedRow) (a o c : List ℚ) (r : RankedRow)
    (hr : r ∈ build_ranked_rows rows a o c) :
    ∃ i, i < rows.length ∧
      r = { country := (rows.map MergedRow.country).getD i ""
            action_sports_score := round1 (a.getD i 0)
            outreach_score := round1 (o.getD i 0)
            combined_score := round1 (c.getD i 0)
            action_sports_rank := rankMin a (a.getD i 0)
            outreach_rank := rankMin o (o.getD i 0)
            combined_rank := rankMin c (c.getD i 0)
            persecution_rank := (rows.map MergedRow.persecution_rank).getD i none
            ttdi_rank := (rows.map MergedRow.ttdi_rank).getD i none } := by
  unfold build_ranked_rows at hr
  obtain ⟨i, hi, rfl⟩ := List.mem_map.1 hr
  exact ⟨i, List.mem_range.1 hi, rfl⟩

theorem mem_sort_by_combined_rank (rows : List RankedRow) (r : RankedRow) :
    r ∈ sort_by_combined_rank rows ↔ r ∈ rows :=
  (List.perm_insertionSort _ rows).mem_iff

theorem sorted_sort_by_combined_rank (rows : List RankedRow) :
    List.Pairwise (fun r1 r2 => r1.combined_rank ≤ r2.combined_rank)
      (sort_by_combined_rank rows) := by
  haveI : IsTotal RankedRow (fun r1 r2 => r1.combined_rank ≤ r2.combined_rank) :=
    ⟨fun r1 r2 => Nat.le_total _ _⟩
  haveI : IsTrans RankedRow (fun r1 r2 => r1.combined_rank ≤ r2.combined_rank) :=
    ⟨fun _ _ _ h1 h2 => le_trans h1 h2⟩
  exact List.sorted_insertionSort _ rows

theorem generate_rankings_some (T : MergedTable) (a o c : List ℚ)
    (hs : score_lists T = some (a, o, c)) :
    generate_rankings T
      = some (sort_by_combined_rank (build_ranked_rows T.rows a o c)) := by
  unfold generate_rankings
  rw [hs]
  rfl

/-- C2: in the output of `generate_rankings`, every record's rank in each
dimension equals one plus the number of records with a strictly greater
(unrounded) score in that dimension; consequently the records tied at the
maximum all receive rank 1 and the best record with the next distinct score
receives rank `k + 1` when `k` records share the maximum; and the output is
sorted ascending by `combined_rank`. -/
theorem C2_dense_min_ranking (T : MergedTable) (a o c : List ℚ) (out : List RankedRow)
    (hs : score_lists T = some (a, o, c)) (hout : generate_rankings T = some out) :
    (∀ r ∈ out, ∃ i, i < T.rows.length ∧
      r.action_sports_rank = 1 + a.countP (fun y => decide (a.getD i 0 < y)) ∧
      r.outreach_rank = 1 + o.countP (fun y => decide (o.getD i 0 < y)) ∧
      r.combined_rank = 1 + c.countP (fun y => decide (c.getD i 0 < y)) ∧
      r.action_sports_score = round1 (a.getD i 0) ∧
      r.outreach_score = round1 (o.getD i 0) ∧
      r.combined_score = round1 (c.getD i 0)) ∧
    (∀ (l : List ℚ) (x y : ℚ) (k : ℕ), (∀ z ∈ l, z ≤ x) →
      l.countP (fun z => decide (z = x)) = k → y < x → (∀ z ∈ l, z < x → z ≤ y) →
      rankMin l x = 1 ∧ rankMin l y = k + 1) ∧
    List.Pairwise (fun r1 r2 => r1.combined_rank ≤ r2.combined_rank) out := by
  have hout' := generate_rankings_some T a o c hs
  rw [hout] at hout'
  obtain rfl : out = _ := Option.some.inj hout'
  refine ⟨?_, ?_, ?_⟩
  · intro r hr
    rw [mem_sort_by_combined_rank] at hr
    obtain ⟨i, hi, rfl⟩ := mem_build_ranked_rows _ a o c r hr
    exact ⟨i, hi, by simp only [rankMin_eq], by simp only [rankMin_eq],
      by simp only [rankMin_eq], rfl, rfl, rfl⟩
  · intro l x y k hmax hk hyx hnext
    refine ⟨rankMin_of_max l x hmax, ?_⟩
    rw [rankMin_of_next l x y hmax hyx hnext, hk]
  · exact sorted_sort_by_combined_rank _

theorem t2w_action : calculate_action_sports_score t2w = [some 50, some 50] := by
  simp [calculate_action_sports_score, ActionSportsScorer.calculate, t2w]

theorem t2w_need : calculate_religious_need_score t2w.rows = [189 / 5, 358 / 5] := by
  norm_num [calculate_religious_need_score, t2w, clipQ, max_def, min_def]

theorem t2w_gap : calculate_missionary_gap_score t2w.rows = [some 50, some 50] := by
  norm_num [calculate_missionary_gap_score, upm_normalized, max_upm,
    unreached_per_million, odiv, t2w, seriesMax, somesQ, List.filterMap_cons,
    List.filterMap_nil, oscale, oclip, clipQ, ozipWith, max_def, min_def]

theorem t2w_legal : legal_openness_component t2w.rows = [100, 100] := by
  norm_num [legal_openness_component, t2w]

theorem t2w_outreach :
    calculate_outreach_score t2w = [some (3131 / 50), some (3807 / 50)] := by
  norm_num [calculate_outreach_score, OutreachScorer.calculate, t2w_need, t2w_gap,
    t2w_legal, oscale, oclip, ozipWith, clipQ, max_def, min_def]

theorem t2w_combined :
    calculate_combined_score [some 50, some 50] [some (3131 / 50), some (3807 / 50)]
      "multiply" = .ok [some (3131 / 100), some (3807 / 100)] := by
  norm_num [calculate_combined_score, ozipWith, oclip, clipQ, max_def, min_def]

theorem t2w_score_lists :
    score_lists t2w
      = some ([50, 50], [3131 / 50, 3807 / 50], [3131 / 100, 3807 / 100]) := by
  simp only [score_lists, t2w_action, t2w_outreach]
  rw [t2w_combined]
  norm_num [seqO]

/-- Witness for C2 at the concrete table `t2w`. -/
theorem C2_witness :
    (score_lists t2w
        = some ([50, 50], [3131 / 50, 3807 / 50], [3131 / 100, 3807 / 100]) ∧
      generate_rankings t2w
        = some (sort_by_combined_rank
            (build_ranked_rows t2w.rows
              [50, 50] [3131 / 50, 3807 / 50] [3131 / 100, 3807 / 100]))) ∧
    ((∀ r ∈ sort_by_combined_rank
          (build_ranked_rows t2w.rows
            [50, 50] [3131 / 50, 3807 / 50] [3131 / 100, 3807 / 100]),
        ∃ i, i < t2w.rows.length ∧
        r.action_sports_rank
          = 1 + List.countP (fun y => decide (List.getD ([50, 50] : List ℚ) i 0 < y))
              ([50, 50] : List ℚ) ∧
        r.outreach_rank
          = 1 + List.countP
              (fun y => decide (List.getD ([3131 / 50, 3807 / 50] : List ℚ) i 0 < y))
              ([3131 / 50, 3807 / 50] : List ℚ) ∧
        r.combined_rank
          = 1 + List.countP
              (fun y => decide (List.getD ([3131 / 100, 3807 / 100] : List ℚ) i 0 < y))
              ([3131 / 100, 3807 / 100] : List ℚ) ∧
        r.action_sports_score = round1 (List.getD ([50, 50] : List ℚ) i 0) ∧
        r.outreach_score = round1 (List.getD [3131 / 50, 3807 / 50] i 0) ∧
        r.combined_score = round1 (List.getD [3131 / 100, 3807 / 100] i 0)) ∧
      (∀ (l : List ℚ) (x y : ℚ) (k : ℕ), (∀ z ∈ l, z ≤ x) →
        l.countP (fun z => decide (z = x)) = k → y < x → (∀ z ∈ l, z < x → z ≤ y) →
        rankMin l x = 1 ∧ rankMin l y = k + 1) ∧
      List.Pairwise (fun r1 r2 => r1.combined_rank ≤ r2.combined_rank)
        (sort_by_combined_rank
          (build_ranked_rows t2w.rows
            [50, 50] [3131 / 50, 3807 / 50] [3131 / 100, 3807 / 100]))) := by
  have hout := generate_rankings_some t2w _ _ _ t2w_score_lists
  exact ⟨⟨t2w_score_lists, hout⟩,
    C2_dense_min_ranking t2w _ _ _ _ t2w_score_lists hout⟩

/-- A lemma mirroring `generate_rankings_some` for the weighted path. -/
theorem generate_rankings_with_weights_some (T : MergedTable)
    (tw sw nw rn mg lo aw ow : ℚ) (method : String) (a o c : List ℚ)
    (hs : score_lists_weighted T tw sw nw rn mg lo aw ow method = some (a, o, c)) :
    generate_rankings_with_weights T tw sw nw rn mg lo aw ow method
      = some (sort_by_combined_rank (build_ranked_rows T.rows a o c)) := by
  unfold generate_rankings_with_weights
  rw [hs]
  rfl

theorem t10_filled :
    ttdi_filled t10 = [some (1751 / 500), some (7001 / 2000)] := by
  simp [ttdi_filled, t10]

theorem t10_tourism :
    min_max_normalize (ttdi_filled t10) (some 1) (some 6) 0 100 false
      = [some (1251 / 25), some (5001 / 100)] := by
  rw [t10_filled]
  norm_num [min_max_normalize, effective_min, effective_max, clipQ, max_def, min_def]

theorem t10_action :
    calculate_action_sports_score t10 = [some (1251 / 25), some (5001 / 100)] := by
  unfold calculate_action_sports_score ActionSportsScorer.calculate
  rw [if_pos (show t10.has_ttdi = true from rfl)]
  exact t10_tourism

theorem t10_need : calculate_religious_need_score t10.rows = [50, 50] := by
  norm_num [calculate_religious_need_score, t10, clipQ, max_def, min_def]

theorem t10_gap : calculate_missionary_gap_score t10.rows = [some 50, some 50] := by
  norm_num [calculate_missionary_gap_score, upm_normalized, max_upm,
    unreached_per_million, odiv, t10, seriesMax, somesQ, List.filterMap_cons,
    List.filterMap_nil, oscale, oclip, clipQ, ozipWith, max_def, min_def]

theorem t10_legal : legal_openness_component t10.rows = [100, 100] := by
  norm_num [legal_openness_component, t10]

theorem t10_outreach :
    calculate_outreach_score t10 = [some (135 / 2), some (135 / 2)] := by
  norm_num [calculate_outreach_score, OutreachScorer.calculate, t10_need, t10_gap,
    t10_legal, oscale, oclip, ozipWith, clipQ, max_def, min_def]

theorem t10_combined :
    calculate_combined_score [some (1251 / 25), some (5001 / 100)]
      [some (135 / 2), some (135 / 2)] "multiply"
      = .ok [some (33777 / 1000), some (135027 / 4000)] := by
  norm_num [calculate_combined_score, ozipWith, oclip, clipQ, max_def, min_def]

theorem t10_score_lists :
    score_lists t10
      = some ([1251 / 25, 5001 / 100], [135 / 2, 135 / 2],
          [33777 / 1000, 135027 / 4000]) := by
  simp only [score_lists, t10_action, t10_outreach]
  rw [t10_combined]
  norm_num [seqO]

theorem t10_rankings :
    generate_rankings t10
      = some
        [ { country := "R1", action_sports_score := 50, outreach_score := 135 / 2,
            combined_score := 169 / 5, action_sports_rank := 1, outreach_rank := 1,
            combined_rank := 1 },
          { country := "R2", action_sports_score := 50, outreach_score := 135 / 2,
            combined_score := 169 / 5, action_sports_rank := 2, outreach_rank := 1,
            combined_rank := 2 } ] := by
  have e1 : round1 (1251 / 25) = 50 := by
    have h := round1_eq_of_lt_half (1251 / 25) 500 (by norm_num) (by norm_num)
    rw [h]
    norm_num
  have e2 : round1 (5001 / 100) = 50 := by
    have h := round1_eq_of_lt_half (5001 / 100) 500 (by norm_num) (by norm_num)
    rw [h]
    norm_num
  have e3 : round1 (135 / 2) = 135 / 2 := by
    have h := round1_eq_of_lt_half (135 / 2) 675 (by norm_num) (by norm_num)
    rw [h]
    norm_num
  have e4 : round1 (33777 / 1000) = 169 / 5 := by
    have h := round1_eq_of_gt_half (33777 / 1000) 337 (by norm_num) (by norm_num)
    rw [h]
    norm_num
  have e5 : round1 (135027 / 4000) = 169 / 5 := by
    have h := round1_eq_of_gt_half (135027 / 4000) 337 (by norm_num) (by norm_num)
    rw [h]
    norm_num
  have k1 : rankMin [1251 / 25, 5001 / 100] (1251 / 25) = 1 := by
    norm_num [rankMin, sortDescQ, List.insertionSort, List.orderedInsert]
  have k2 : rankMin [1251 / 25, 5001 / 100] (5001 / 100) = 2 := by
    norm_num [rankMin, sortDescQ, List.insertionSort, List.orderedInsert]
  have k3 : rankMin [135 / 2, 135 / 2] (135 / 2) = 1 := by
    norm_num [rankMin, sortDescQ, List.insertionSort, List.orderedInsert]
  have k4 : rankMin [33777 / 1000, 135027 / 4000] (33777 / 1000) = 1 := by
    norm_num [rankMin, sortDescQ, List.insertionSort, List.orderedInsert]
  have k5 : rankMin [33777 / 1000, 135027 / 4000] (135027 / 4000) = 2 := by
    norm_num [rankMin, sortDescQ, List.insertionSort, List.orderedInsert]
  rw [generate_rankings_some t10 _ _ _ t10_score_lists]
  congr 1
  simp only [t10, List.map_cons, List.map_nil, build_ranked_rows, List.length_cons,
    List.length_nil]
  norm_num [List.range_succ, List.getD_cons_zero, List.getD_cons_succ,
    e1, e2, e3, e4, e5, k1, k2, k3, k4, k5,
    sort_by_combined_rank, List.insertionSort, List.orderedInsert]

theorem t10_action_weighted :
    calculate_action_sports_score_weighted t10 (2 / 5) (3 / 10) (3 / 10)
      = [some (8502 / 125), some (17001 / 250)] := by
  unfold calculate_action_sports_score_weighted
  rw [if_pos (show t10.has_ttdi = true from rfl), t10_tourism]
  have hb : continent_bonus "Nowhere" = 0 := rfl
  norm_num [norm_weights3, hb, t10, oclip, clipQ, ozipWith, oscale,
    max_def, min_def]

theorem t10_outreach_weighted :
    calculate_outreach_score_weighted t10 (2 / 5) (1 / 4) (7 / 20)
      = [some (135 / 2), some (135 / 2)] := by
  norm_num [calculate_outreach_score_weighted, t10_need, t10_gap, t10_legal,
    norm_weights3, oscale, oclip, ozipWith, clipQ, max_def, min_def]

theorem t10_combined_weighted :
    calculate_combined_score_weighted [some (8502 / 125), some (17001 / 250)]
      [some (135 / 2), some (135 / 2)] (1 / 2) (1 / 2) "multiply"
      = [some (114777 / 2500), some (459027 / 10000)] := by
  norm_num [calculate_combined_score_weighted, ozipWith, oclip, clipQ, max_def, min_def]

theorem t10_score_lists_weighted :
    score_lists_weighted t10 (2 / 5) (3 / 10) (3 / 10) (2 / 5) (1 / 4) (7 / 20)
      (1 / 2) (1 / 2) "multiply"
      = some ([8502 / 125, 17001 / 250], [135 / 2, 135 / 2],
          [114777 / 2500, 459027 / 10000]) := by
  simp only [score_lists_weighted, t10_action_weighted, t10_outreach_weighted,
    t10_combined_weighted]
  norm_num [seqO]

theorem t10_rankings_weighted :
    generate_rankings_with_weights t10 (2 / 5) (3 / 10) (3 / 10) (2 / 5) (1 / 4) (7 / 20)
      (1 / 2) (1 / 2) "multiply"
      = some
        [ { country := "R1", action_sports_score := 68, outreach_score := 135 / 2,
            combined_score := 459 / 10, action_sports_rank := 1, outreach_rank := 1,
            combined_rank := 1 },
          { country := "R2", action_sports_score := 68, outreach_score := 135 / 2,
            combined_score := 459 / 10, action_sports_rank := 2, outreach_rank := 1,
            combined_rank := 2 } ] := by
  have e1 : round1 (8502 / 125) = 68 := by
    have h := round1_eq_of_lt_half (8502 / 125) 680 (by norm_num) (by norm_num)
    rw [h]
    norm_num
  have e2 : round1 (17001 / 250) = 68 := by
    have h := round1_eq_of_lt_half (17001 / 250) 680 (by norm_num) (by norm_num)
    rw [h]
    norm_num
  have e3 : round1 (135 / 2) = 135 / 2 := by
    have h := round1_eq_of_lt_half (135 / 2) 675 (by norm_num) (by norm_num)
    rw [h]
    norm_num
  have e4 : round1 (114777 / 2500) = 459 / 10 := by
    have h := round1_eq_of_lt_half (114777 / 2500) 459 (by norm_num) (by norm_num)
    rw [h]
    norm_num
  have e5 : round1 (459027 / 10000) = 459 / 10 := by
    have h := round1_eq_of_lt_half (459027 / 10000) 459 (by norm_num) (by norm_num)
    rw [h]
    norm_num
  have k1 : rankMin [8502 / 125, 17001 / 250] (8502 / 125) = 1 := by
    norm_num [rankMin, sortDescQ, List.insertionSort, List.orderedInsert]
  have k2 : rankMin [8502 / 125, 17001 / 250] (17001 / 250) = 2 := by
    norm_num [rankMin, sortDescQ, List.insertionSort, List.orderedInsert]
  have k3 : rankMin [135 / 2, 135 / 2] (135 / 2) = 1 := by
    norm_num [rankMin, sortDescQ, List.insertionSort, List.orderedInsert]
  have k4 : rankMin [114777 / 2500, 459027 / 10000] (114777 / 2500) = 1 := by
    norm_num [rankMin, sortDescQ, List.insertionSort, List.orderedInsert]
  have k5 : rankMin [114777 / 2500, 459027 / 10000] (459027 / 10000) = 2 := by
    norm_num [rankMin, sortDescQ, List.insertionSort, List.orderedInsert]
  rw [generate_rankings_with_weights_some t10 (2 / 5) (3 / 10) (3 / 10) (2 / 5) (1 / 4)
    (7 / 20) (1 / 2) (1 / 2) "multiply" _ _ _ t10_score_lists_weighted]
  congr 1
  simp only [t10, List.map_cons, List.map_nil, build_ranked_rows, List.length_cons,
    List.length_nil]
  norm_num [List.range_succ, List.getD_cons_zero, List.getD_cons_succ,
    e1, e2, e3, e4, e5, k1, k2, k3, k4, k5,
    sort_by_combined_rank, List.insertionSort, List.orderedInsert]

/-- C10: in both ranking paths, ranks are computed from the unrounded
scores and rounding to one decimal happens only afterwards: on a concrete
table the two records display the same rounded `action_sports_score` (and
the same rounded `combined_score`) yet receive different ranks in those
dimensions. -/
theorem C10_ranks_from_unrounded_scores :
    (generate_rankings t10
      = some
        [ { country := "R1", action_sports_score := 50, outreach_score := 135 / 2,
            combined_score := 169 / 5, action_sports_rank := 1, outreach_rank := 1,
            combined_rank := 1 },
          { country := "R2", action_sports_score := 50, outreach_score := 135 / 2,
            combined_score := 169 / 5, action_sports_rank := 2, outreach_rank := 1,
            combined_rank := 2 } ]) ∧
    (generate_rankings_with_weights t10 (2 / 5) (3 / 10) (3 / 10) (2 / 5) (1 / 4) (7 / 20)
      (1 / 2) (1 / 2) "multiply"
      = some
        [ { country := "R1", action_sports_score := 68, outreach_score := 135 / 2,
            combined_score := 459 / 10, action_sports_rank := 1, outreach_rank := 1,
            combined_rank := 1 },
          { country := "R2", action_sports_score := 68, outreach_score := 135 / 2,
            combined_score := 459 / 10, action_sports_rank := 2, outreach_rank := 1,
            combined_rank := 2 } ]) ∧
    (∃ r1 r2 : RankedRow, generate_rankings t10 = some [r1, r2] ∧
      r1.action_sports_score = r2.action_sports_score ∧
      r1.action_sports_rank ≠ r2.action_sports_rank ∧
      r1.combined_score = r2.combined_score ∧
      r1.combined_rank ≠ r2.combined_rank) ∧
    (∃ r1 r2 : RankedRow,
      generate_rankings_with_weights t10 (2 / 5) (3 / 10) (3 / 10) (2 / 5) (1 / 4) (7 / 20)
        (1 / 2) (1 / 2) "multiply" = some [r1, r2] ∧
      r1.action_sports_score = r2.action_sports_score ∧
      r1.action_sports_rank ≠ r2.action_sports_rank) := by
  refine ⟨t10_rankings, t10_rankings_weighted, ⟨_, _, t10_rankings, rfl, by decide, rfl, by decide⟩,
    ⟨_, _, t10_rankings_weighted, rfl, by decide⟩⟩

theorem t5_filled : ttdi_filled t5 = [some (8781 / 2500)] := by
  simp [ttdi_filled, t5]

theorem t5_action : calculate_action_sports_score t5 = [some (6281 / 125)] := by
  unfold calculate_action_sports_score ActionSportsScorer.calculate
  rw [if_pos (show t5.has_ttdi = true from rfl), t5_filled]
  norm_num [min_max_normalize, effective_min, effective_max, clipQ, max_def, min_def]

theorem t5_need : calculate_religious_need_score t5.rows = [191 / 5] := by
  norm_num [calculate_religious_need_score, t5, clipQ, max_def, min_def]

theorem t5_gap : calculate_missionary_gap_score t5.rows = [some 35] := by
  norm_num [calculate_missionary_gap_score, upm_normalized, max_upm,
    unreached_per_million, odiv, t5, seriesMax, somesQ, List.filterMap_cons,
    List.filterMap_nil, oscale, oclip, clipQ, ozipWith, max_def, min_def]

theorem t5_legal : legal_openness_component t5.rows = [100] := by
  norm_num [legal_openness_component, t5]

theorem t5_outreach : calculate_outreach_score t5 = [some (5903 / 100)] := by
  norm_num [calculate_outreach_score, OutreachScorer.calculate, t5_need, t5_gap,
    t5_legal, oscale, oclip, ozipWith, clipQ, max_def, min_def]

theorem t5_combined :
    calculate_combined_score [some (6281 / 125)] [some (5903 / 100)] "multiply"
      = .ok [some (37076743 / 1250000)] := by
  norm_num [calculate_combined_score, ozipWith, oclip, clipQ, max_def, min_def]

theorem t5_score_lists :
    score_lists t5 = some ([6281 / 125], [5903 / 100], [37076743 / 1250000]) := by
  simp only [score_lists, t5_action, t5_outreach]
  rw [t5_combined]
  norm_num [seqO]

theorem t5_rankings :
    generate_rankings t5
      = some
        [ { country := "X", action_sports_score := 251 / 5, outreach_score := 59,
            combined_score := 297 / 10, action_sports_rank := 1, outreach_rank := 1,
            combined_rank := 1 } ] := by
  have e1 : round1 (6281 / 125) = 251 / 5 := by
    have h := round1_eq_of_lt_half (6281 / 125) 502 (by norm_num) (by norm_num)
    rw [h]
    norm_num
  have e2 : round1 (5903 / 100) = 59 := by
    have h := round1_eq_of_lt_half (5903 / 100) 590 (by norm_num) (by norm_num)
    rw [h]
    norm_num
  have e3 : round1 (37076743 / 1250000) = 297 / 10 := by
    have h := round1_eq_of_gt_half (37076743 / 1250000) 296 (by norm_num) (by norm_num)
    rw [h]
    norm_num
  have k1 : rankMin [6281 / 125] (6281 / 125) = 1 := by
    norm_num [rankMin, sortDescQ, List.insertionSort, List.orderedInsert]
  have k2 : rankMin [5903 / 100] (5903 / 100) = 1 := by
    norm_num [rankMin, sortDescQ, List.insertionSort, List.orderedInsert]
  have k3 : rankMin [37076743 / 1250000] (37076743 / 1250000) = 1 := by
    norm_num [rankMin, sortDescQ, List.insertionSort, List.orderedInsert]
  rw [generate_rankings_some t5 _ _ _ t5_score_lists]
  congr 1
  simp only [t5, List.map_cons, List.map_nil, build_ranked_rows, List.length_cons,
    List.length_nil]
  norm_num [List.range_succ, List.getD_cons_zero, List.getD_cons_succ,
    e1, e2, e3, k1, k2, k3,
    sort_by_combined_rank, List.insertionSort, List.orderedInsert]

/-- C5 counterexample: `generate_rankings` does **not** round the component
scores before combining.  On the table `t5` the code's displayed combined
score is 29.7 — the rounding of the combined value of the *unrounded*
component scores — while rounding the components first (as the claim
describes the default path) would display 29.6. -/
theorem C5_counterexample :
    (generate_rankings t5
      = some
        [ { country := "X", action_sports_score := 251 / 5, outreach_score := 59,
            combined_score := 297 / 10, action_sports_rank := 1, outreach_rank := 1,
            combined_rank := 1 } ]) ∧
    round1 (round1 (6281 / 125) * round1 (5903 / 100) / 100) = 296 / 10 ∧
    (∃ r : RankedRow, generate_rankings t5 = some [r] ∧
      r.combined_score ≠ round1 (r.action_sports_score * r.outreach_score / 100)) := by
  have e1 : round1 (6281 / 125) = 251 / 5 := by
    have h := round1_eq_of_lt_half (6281 / 125) 502 (by norm_num) (by norm_num)
    rw [h]
    norm_num
  have e2 : round1 (5903 / 100) = 59 := by
    have h := round1_eq_of_lt_half (5903 / 100) 590 (by norm_num) (by norm_num)
    rw [h]
    norm_num
  have e4 : round1 (251 / 5 * 59 / 100) = 296 / 10 := by
    have h := round1_eq_of_lt_half (251 / 5 * 59 / 100) 296 (by norm_num) (by norm_num)
    rw [h]
    norm_num
  refine ⟨t5_rankings, ?_, ?_⟩
  · rw [e1, e2]
    exact e4
  · refine ⟨_, t5_rankings, ?_⟩
    show (297 : ℚ) / 10 ≠ round1 (251 / 5 * 59 / 100)
    rw [e4]
    norm_num

theorem zipWith_ozipWith_map_some (f : ℚ → ℚ → ℚ) (a o : List ℚ) :
    List.zipWith (ozipWith f) (a.map some) (o.map some)
      = (List.zipWith f a o).map some := by
  induction a generalizing o with
  | nil => simp
  | cons x xs ih =>
    cases o with
    | nil => simp
    | cons y ys => simp [ozipWith, ih]

theorem oclip_map_some (lo hi : ℚ) (l : List ℚ) :
    (l.map some).map (oclip lo hi) = (l.map (clipQ lo hi)).map some := by
  simp [oclip, List.map_map, Function.comp]

/-- Destructuring of a successful default score computation: the action and
outreach columns are fully non-null, and the combined column is the clipped
`multiply` combination of the *unrounded* component columns. -/
theorem score_lists_eq (T : MergedTable) (a o c : List ℚ)
    (hs : score_lists T = some (a, o, c)) :
    calculate_action_sports_score T = a.map some ∧
    calculate_outreach_score T = o.map some ∧
    c = List.zipWith (fun x y => clipQ 0 100 (x * y / 100)) a o := by
  have hmul : calculate_combined_score (calculate_action_sports_score T)
      (calculate_outreach_score T) "multiply"
      = .ok ((List.zipWith (ozipWith (fun x y => x * y / 100))
          (calculate_action_sports_score T) (calculate_outreach_score T)).map
          (oclip 0 100)) := by
    unfold calculate_combined_score
    rw [if_pos rfl]
  simp only [score_lists] at hs
  rw [hmul] at hs
  simp only [Option.pure_def, Option.bind_eq_bind, Option.bind_eq_some,
    Option.some.injEq, Prod.mk.injEq] at hs
  obtain ⟨a', hA, o', hO, c', hC, ha, ho, hc⟩ := hs
  subst ha
  subst ho
  subst hc
  have hA' := (seqO_eq_some _ _).1 hA
  have hO' := (seqO_eq_some _ _).1 hO
  have hC' := (seqO_eq_some _ _).1 hC
  refine ⟨hA', hO', ?_⟩
  rw [hA', hO', zipWith_ozipWith_map_some, oclip_map_some] at hC'
  have hinj : Function.Injective (some : ℚ → Option ℚ) := fun _ _ h => Option.some.inj h
  have := (List.map_injective_iff.2 hinj) hC'
  rw [← this, List.map_zipWith]

/-- Destructuring of a successful weighted score computation under the
`multiply` method. -/
theorem score_lists_weighted_eq (T : MergedTable) (tw sw nw rn mg lo aw ow : ℚ)
    (a o c : List ℚ)
    (hs : score_lists_weighted T tw sw nw rn mg lo aw ow "multiply" = some (a, o, c)) :
    calculate_action_sports_score_weighted T tw sw nw = a.map some ∧
    calculate_outreach_score_weighted T rn mg lo = o.map some ∧
    c = List.zipWith (fun x y => clipQ 0 100 (x * y / 100)) a o := by
  have hmul : calculate_combined_score_weighted
      (calculate_action_sports_score_weighted T tw sw nw)
      (calculate_outreach_score_weighted T rn mg lo) aw ow "multiply"
      = (List.zipWith (ozipWith (fun x y => x * y / 100))
          (calculate_action_sports_score_weighted T tw sw nw)
          (calculate_outreach_score_weighted T rn mg lo)).map (oclip 0 100) := by
    unfold calculate_combined_score_weighted
    rw [if_pos rfl]
  simp only [score_lists_weighted] at hs
  rw [hmul] at hs
  simp only [Option.pure_def, Option.bind_eq_bind, Option.bind_eq_some,
    Option.some.injEq, Prod.mk.injEq] at hs
  obtain ⟨a', hA, o', hO, c', hC, ha, ho, hc⟩ := hs
  subst ha
  subst ho
  subst hc
  have hA' := (seqO_eq_some _ _).1 hA
  have hO' := (seqO_eq_some _ _).1 hO
  have hC' := (seqO_eq_some _ _).1 hC
  refine ⟨hA', hO', ?_⟩
  rw [hA', hO', zipWith_ozipWith_map_some, oclip_map_some] at hC'
  have hinj : Function.Injective (some : ℚ → Option ℚ) := fun _ _ h => Option.some.inj h
  have := (List.map_injective_iff.2 hinj) hC'
  rw [← this, List.map_zipWith]

/-- C5 amended: in **both** the default path (`generate_rankings`) and the
customizable path (`generate_rankings_with_weights`), the combined score is
computed from the *unrounded* component scores and rounding to one decimal
happens only afterwards; the two paths therefore agree on rounding order
and do not diverge on that account. -/
theorem C5_round_after_combine (T T2 : MergedTable) (a o c a2 o2 c2 : List ℚ)
    (tw sw nw rn mg lo aw ow : ℚ)
    (hs : score_lists T = some (a, o, c))
    (hs2 : score_lists_weighted T2 tw sw nw rn mg lo aw ow "multiply" = some (a2, o2, c2)) :
    c = List.zipWith (fun x y => clipQ 0 100 (x * y / 100)) a o ∧
    c2 = List.zipWith (fun x y => clipQ 0 100 (x * y / 100)) a2 o2 ∧
    (∀ out, generate_rankings T = some out → ∀ r ∈ out, ∃ i, i < T.rows.length ∧
      r.action_sports_score = round1 (a.getD i 0) ∧
      r.outreach_score = round1 (o.getD i 0) ∧
      r.combined_score = round1 (c.getD i 0)) ∧
    (∀ out, generate_rankings_with_weights T2 tw sw nw rn mg lo aw ow "multiply" = some out →
      ∀ r ∈ out, ∃ i, i < T2.rows.length ∧
      r.action_sports_score = round1 (a2.getD i 0) ∧
      r.outreach_score = round1 (o2.getD i 0) ∧
      r.combined_score = round1 (c2.getD i 0)) := by
  refine ⟨(score_lists_eq T a o c hs).2.2,
    (score_lists_weighted_eq T2 tw sw nw rn mg lo aw ow a2 o2 c2 hs2).2.2, ?_, ?_⟩
  · intro out hout r hr
    have h1 := generate_rankings_some T a o c hs
    rw [hout] at h1
    obtain rfl : out = _ := Option.some.inj h1
    rw [mem_sort_by_combined_rank] at hr
    obtain ⟨i, hi, rfl⟩ := mem_build_ranked_rows _ a o c r hr
    exact ⟨i, hi, rfl, rfl, rfl⟩
  · intro out hout r hr
    have h1 := generate_rankings_with_weights_some T2 tw sw nw rn mg lo aw ow "multiply"
      a2 o2 c2 hs2
    rw [hout] at h1
    obtain rfl : out = _ := Option.some.inj h1
    rw [mem_sort_by_combined_rank] at hr
    obtain ⟨i, hi, rfl⟩ := mem_build_ranked_rows _ a2 o2 c2 r hr
    exact ⟨i, hi, rfl, rfl, rfl⟩

/-- Witness for the amended C5 at the concrete tables `t2w` and `t10`. -/
theorem C5_witness :
    (score_lists t2w
        = some ([50, 50], [3131 / 50, 3807 / 50], [3131 / 100, 3807 / 100]) ∧
      score_lists_weighted t10 (2 / 5) (3 / 10) (3 / 10) (2 / 5) (1 / 4) (7 / 20)
        (1 / 2) (1 / 2) "multiply"
        = some ([8502 / 125, 17001 / 250], [135 / 2, 135 / 2],
            [114777 / 2500, 459027 / 10000])) ∧
    (([3131 / 100, 3807 / 100] : List ℚ)
        = List.zipWith (fun x y => clipQ 0 100 (x * y / 100))
            ([50, 50] : List ℚ) ([3131 / 50, 3807 / 50] : List ℚ) ∧
      ([114777 / 2500, 459027 / 10000] : List ℚ)
        = List.zipWith (fun x y => clipQ 0 100 (x * y / 100))
            ([8502 / 125, 17001 / 250] : List ℚ) ([135 / 2, 135 / 2] : List ℚ) ∧
      (∀ out, generate_rankings t2w = some out → ∀ r ∈ out, ∃ i, i < t2w.rows.length ∧
        r.action_sports_score = round1 (List.getD ([50, 50] : List ℚ) i 0) ∧
        r.outreach_score = round1 (List.getD ([3131 / 50, 3807 / 50] : List ℚ) i 0) ∧
        r.combined_score = round1 (List.getD ([3131 / 100, 3807 / 100] : List ℚ) i 0)) ∧
      (∀ out, generate_rankings_with_weights t10 (2 / 5) (3 / 10) (3 / 10) (2 / 5) (1 / 4)
          (7 / 20) (1 / 2) (1 / 2) "multiply" = some out →
        ∀ r ∈ out, ∃ i, i < t10.rows.length ∧
        r.action_sports_score = round1 (List.getD ([8502 / 125, 17001 / 250] : List ℚ) i 0) ∧
        r.outreach_score = round1 (List.getD ([135 / 2, 135 / 2] : List ℚ) i 0) ∧
        r.combined_score
          = round1 (List.getD ([114777 / 2500, 459027 / 10000] : List ℚ) i 0))) :=
  ⟨⟨t2w_score_lists, t10_score_lists_weighted⟩,
    C5_round_after_combine t2w t10 _ _ _ _ _ _ (2 / 5) (3 / 10) (3 / 10) (2 / 5) (1 / 4)
      (7 / 20) (1 / 2) (1 / 2) t2w_score_lists t10_score_lists_weighted⟩

/-- C3: after `merge_all_data` completes its joins (which requires a
non-empty persecution table, else the unconditional column access raises),
no base row is dropped; `legal_openness = 100 - persecution_score` holds on
every row; a row whose joined persecution value is null gets
`persecution_score = 0`; a row whose joined TTDI value is null gets the
single population median of the non-null joined TTDI values; and a row
whose country is absent from the activity-availability table gets every
activity flag `false`. -/
theorem C3_merge_fill_policy (joshRows : List JoshuaRow) (odRows : List OpenDoorsRow)
    (wefRows : List WefRow) (sports : SportsTable) (T : MergedTable)
    (hod : odRows ≠ [])
    (hmerge : merge_all_data joshRows odRows wefRows sports = some T) :
    T.rows.length = joshRows.length ∧
    (∀ r ∈ T.rows, r.legal_openness = 100 - r.persecution_score) ∧
    (∀ j ∈ joshRows, build_merged_row joshRows odRows wefRows sports j ∈ T.rows) ∧
    (∀ j ∈ joshRows, joined_persecution odRows j = none →
      (build_merged_row joshRows odRows wefRows sports j).persecution_score = 0) ∧
    (wefRows ≠ [] → ∀ j ∈ joshRows, joined_ttdi wefRows j = none →
      (build_merged_row joshRows odRows wefRows sports j).ttdi_score
        = ttdi_fill_median joshRows wefRows) ∧
    (sports.rows ≠ [] → ∀ j ∈ joshRows,
      find_join j.iso_alpha_3 SportsRow.iso_alpha_3 sports.rows = none →
      (build_merged_row joshRows odRows wefRows sports j).sport_flags
        = List.replicate sports.sport_columns.length false) := by
  unfold merge_all_data at hmerge
  rw [if_neg (by simpa using hod)] at hmerge
  obtain rfl : _ = T := Option.some.inj hmerge
  refine ⟨List.length_map _ _, ?_, ?_, ?_, ?_, ?_⟩
  · intro r hr
    obtain ⟨j, _, rfl⟩ := List.mem_map.1 hr
    rfl
  · intro j hj
    exact List.mem_map_of_mem _ hj
  · intro j hj hnone
    unfold build_merged_row
    simp [hnone]
  · intro hwef j hj hnone
    unfold build_merged_row
    simp only
    rw [if_neg (by simpa using hwef), hnone]
  · intro hsp j hj hnone
    unfold build_merged_row
    simp only
    rw [if_neg (by simpa using hsp)]
    unfold joined_sport_flags
    rw [hnone]

theorem mergedW_eq : merge_all_data joshW odW wefW sportsW = some mergedW := by
  norm_num [merge_all_data, build_merged_row, joined_persecution,
    joined_persecution_rank, joined_ttdi, joined_ttdi_rank, ttdi_fill_median,
    joined_sport_flags, find_join, medianQ, sortAscQ, somesQ, List.filterMap_cons,
    List.filterMap_nil, List.insertionSort, List.orderedInsert, List.find?,
    joshW, odW, wefW, sportsW, mergedW, List.replicate]
  decide

/-- Witness for C3 at the concrete tables. -/
theorem C3_witness :
    (odW ≠ [] ∧ merge_all_data joshW odW wefW sportsW = some mergedW) ∧
    (mergedW.rows.length = joshW.length ∧
    (∀ r ∈ mergedW.rows, r.legal_openness = 100 - r.persecution_score) ∧
    (∀ j ∈ joshW, build_merged_row joshW odW wefW sportsW j ∈ mergedW.rows) ∧
    (∀ j ∈ joshW, joined_persecution odW j = none →
      (build_merged_row joshW odW wefW sportsW j).persecution_score = 0) ∧
    (wefW ≠ [] → ∀ j ∈ joshW, joined_ttdi wefW j = none →
      (build_merged_row joshW odW wefW sportsW j).ttdi_score
        = ttdi_fill_median joshW wefW) ∧
    (sportsW.rows ≠ [] → ∀ j ∈ joshW,
      find_join j.iso_alpha_3 SportsRow.iso_alpha_3 sportsW.rows = none →
      (build_merged_row joshW odW wefW sportsW j).sport_flags
        = List.replicate sportsW.sport_columns.length false)) :=
  ⟨⟨by decide, mergedW_eq⟩,
    C3_merge_fill_policy joshW odW wefW sportsW mergedW (by decide) mergedW_eq⟩

theorem t9_eq : merge_all_data josh9 od9 [] sports9 = some t9 := by
  norm_num [merge_all_data, build_merged_row, joined_persecution,
    joined_persecution_rank, joined_ttdi, joined_ttdi_rank, ttdi_fill_median,
    joined_sport_flags, find_join, josh9, od9, sports9, t9, List.find?]
  decide

theorem t9_need : calculate_religious_need_score t9.rows = [4, 72, 38] := by
  norm_num [calculate_religious_need_score, t9, clipQ, max_def, min_def]

theorem t9_gap : calculate_missionary_gap_score t9.rows = [some 50, some 50, some 50] := by
  norm_num [calculate_missionary_gap_score, upm_normalized, max_upm,
    unreached_per_million, odiv, t9, seriesMax, somesQ, List.filterMap_cons,
    List.filterMap_nil, oscale, oclip, clipQ, ozipWith, max_def, min_def]

theorem t9_legal : legal_openness_component t9.rows = [100, 100, 100] := by
  norm_num [legal_openness_component, t9]

theorem t9_outreach :
    calculate_outreach_score t9 = [some (491 / 10), some (763 / 10), some (627 / 10)] := by
  norm_num [calculate_outreach_score, OutreachScorer.calculate, t9_need, t9_gap,
    t9_legal, oscale, oclip, ozipWith, clipQ, max_def, min_def]

theorem t9_action : calculate_action_sports_score t9 = [some 50, some 50, some 50] := by
  simp [calculate_action_sports_score, ActionSportsScorer.calculate, t9]

/-- C9: on the 3-country scenario (no persecution or TTDI rows for any of
the three countries), after merging, default scoring gives B a strictly
greater outreach score than A and than C, and the three action-sports
scores are all equal to 50.0 (the no-TTDI-column default of the
single-factor scorer). -/
theorem C9_three_country_scenario :
    merge_all_data josh9 od9 [] sports9 = some t9 ∧
    calculate_outreach_score t9 = [some (491 / 10), some (763 / 10), some (627 / 10)] ∧
    calculate_action_sports_score t9 = [some 50, some 50, some 50] ∧
    ((491 : ℚ) / 10 < 763 / 10 ∧ (627 : ℚ) / 10 < 763 / 10) :=
  ⟨t9_eq, t9_outreach, t9_action, by norm_num, by norm_num⟩
